import Mathlib

/-!
Shallow embedding of the autoxdcc WeeChat engine
(`weechat/libautoxdcc/models.py`, `weechat/libautoxdcc/session_manager.py`)
and of the relay transport client (`bot/weechat_relay_client.py`).

Python dictionaries keyed by session id are embedded as functions
`String → Option _`; the single-threaded WeeChat callback loop is embedded
as a step relation on the engine state, with timer/print hook delivery
guarded by the presence of the corresponding hook handle (WeeChat only
invokes a callback whose hook is still registered).
-/

namespace AutoXDCC

/-- A raw parsed search result line (`irc_parser.parse_search_result_line`
produces dicts with keys grabs/size/filename/command). -/
structure Record where
  grabs : Nat
  size : String
  filename : String
  command : String
deriving DecidableEq, Repr

/-- A curated choice produced by `XDCCSession.generate_choices`. -/
structure Choice where
  choice_id : Nat
  filename : String
  size : String
deriving DecidableEq, Repr

/-- A parsed `!hot` list item (`irc_parser.parse_hot_item_line`). -/
structure HotItem where
  grabs : Nat
  category : String
  size : String
  filename : String
deriving DecidableEq, Repr

/-- The comparison performed by `self.search_results.sort(key=lambda x:
x['grabs'], reverse=True)`: `a` may come before `b` iff `b.grabs ≤ a.grabs`. -/
def grabsGE (a b : Record) : Prop := b.grabs ≤ a.grabs

instance : DecidableRel grabsGE := fun a b => Nat.decLe b.grabs a.grabs

instance : IsTotal Record grabsGE := ⟨fun a b => Nat.le_total b.grabs a.grabs⟩

instance : IsTrans Record grabsGE := ⟨fun _ _ _ h h' => Nat.le_trans h' h⟩

/-- `list.sort(key=lambda x: x['grabs'], reverse=True)`: Python's sort is
stable, and insertion sort with `grabsGE` keeps equal-grabs records in their
original relative order, exactly as CPython's Timsort does. -/
def sortGrabsDesc (rs : List Record) : List Record := rs.insertionSort grabsGE

/-- Helper for `dedupFirst`: drop elements already seen, keeping first
occurrences in order. -/
def dedupFirstAux (seen : List String) : List String → List String
  | [] => []
  | x :: xs => if x ∈ seen then dedupFirstAux seen xs else x :: dedupFirstAux (x :: seen) xs

/-- `list(dict.fromkeys(xs))`: deduplicate keeping the first occurrence,
preserving order. -/
def dedupFirst (l : List String) : List String := dedupFirstAux [] l

/-- `XDCCSession.generate_choices` as a pure function of the collected
search results: sort by grabs descending (stable), collapse to unique
filenames in first-seen order, and for each unique filename take
`next(r for r in self.search_results if r['filename'] == filename)` —
the first record in the sorted list with that filename. -/
def generate_choices (rs : List Record) : List Choice :=
  let sorted := sortGrabsDesc rs
  let unique_filenames := dedupFirst (sorted.map (·.filename))
  unique_filenames.enum.filterMap fun p =>
    (sorted.find? (fun r => r.filename == p.2)).map fun best =>
      { choice_id := p.1 + 1, filename := p.2, size := best.size }

/-- `models.XDCCSession`: per-session data. `type` is the literal Python
string tag, `"search"` or `"hot"`. -/
structure XDCCSession where
  id : String
  query : String
  type : String
  search_results : List Record := []
  choices : List Choice := []
  hot_summary : String := ""
  hot_items : List HotItem := []
deriving DecidableEq, Repr

/-- `XDCCSession.add_search_result`. -/
def XDCCSession.add_search_result (s : XDCCSession) (r : Record) : XDCCSession :=
  { s with search_results := s.search_results ++ [r] }

/-- `XDCCSession.add_hot_item`. -/
def XDCCSession.add_hot_item (s : XDCCSession) (it : HotItem) : XDCCSession :=
  { s with hot_items := s.hot_items ++ [it] }

/-- The session method `generate_choices`: it sorts `self.search_results` in
place (so the stored list ends up sorted) and appends the curated choices to
`self.choices`. The pure `generate_choices` above starts from the same sort,
so feeding it the pre-sort list reproduces the method exactly. -/
def XDCCSession.run_generate_choices (s : XDCCSession) : XDCCSession :=
  { s with search_results := sortGrabsDesc s.search_results,
           choices := s.choices ++ generate_choices s.search_results }

/-- ASCII whitespace stripped by Python's `int(str)` conversion. -/
def isPySpace (c : Char) : Bool :=
  c = ' ' || c = '\t' || c = '\n' || c = '\r' || c = '\x0b' || c = '\x0c'

/-- Decimal digit test. -/
def isPyDigit (c : Char) : Bool := '0' ≤ c && c ≤ '9'

/-- Continue a numeral after its first digit; Python allows one underscore
only between two digits (a trailing or doubled underscore is a ValueError,
caught by the generic arm since `_` is not a digit). -/
def parseDigitsAux : List Char → Nat → Option Nat
  | [], acc => some acc
  | '_' :: c :: cs, acc =>
    if isPyDigit c then parseDigitsAux cs (acc * 10 + (c.toNat - '0'.toNat))
    else none
  | c :: cs, acc =>
    if isPyDigit c then parseDigitsAux cs (acc * 10 + (c.toNat - '0'.toNat))
    else none

/-- A full decimal numeral: at least one digit, then `parseDigitsAux`. -/
def parseDigits : List Char → Option Nat
  | c :: cs => if isPyDigit c then parseDigitsAux cs (c.toNat - '0'.toNat) else none
  | [] => none

/-- Python's `int(...)` on a string: ASCII whitespace is stripped from both
ends, one optional `+`/`-` sign is allowed, then a decimal numeral with
single underscores permitted between digits (non-ASCII digit forms are out
of scope); `none` embeds the raised `ValueError`. -/
def str_to_int (s : String) : Option Int :=
  match ((s.data.dropWhile isPySpace).reverse.dropWhile isPySpace).reverse with
  | '-' :: cs => (parseDigits cs).map (fun n => -(n : Int))
  | '+' :: cs => (parseDigits cs).map (fun n => (n : Int))
  | cs => (parseDigits cs).map (fun n => (n : Int))

/-- `XDCCSession.get_download_command`. Returns the session as mutated by the
in-place re-sort together with the `(command, filename)` pair; `int(choice_id)`
is embedded as `str_to_int`. -/
def XDCCSession.get_download_command (s : XDCCSession) (choice_id : String) :
    XDCCSession × Option String × Option String :=
  match str_to_int choice_id with
  | none => (s, none, none)
  | some choice_id_int =>
    match s.choices.find? (fun c => (c.choice_id : Int) == choice_id_int) with
    | none => (s, none, none)
    | some target_choice =>
      let target_filename := target_choice.filename
      let sorted := sortGrabsDesc s.search_results
      let s' := { s with search_results := sorted }
      match sorted.find? (fun r => r.filename == target_filename) with
      | some target_result => (s', some target_result.command, some target_filename)
      | none => (s', none, some target_filename)

/-- One outbound webhook, identified by endpoint and payload
(`webhook_sender.WebhookSender`). `send_rejection` and `send_error` both post
to the `search_results` endpoint with statuses `rejected_busy` / `error`. -/
inductive Notification
  | search_results (session_id status message : String) (choices : Option (List Choice))
  | hot_results (session_id status : String) (summary : Option String) (items : Option (List HotItem))
  | download_status (session_id status message : String)
  | session_expired (session_id message : String)
deriving DecidableEq, Repr

/-- `WebhookSender.send_rejection`. -/
def send_rejection (session_id message : String) : Notification :=
  .search_results session_id "rejected_busy" message none

/-- `WebhookSender.send_error`. -/
def send_error (session_id message : String) : Notification :=
  .search_results session_id "error" message none

/-- Observable effects of one engine callback: a webhook, a line sent to the
IRC channel buffer via `weechat.command`, or a Python exception escaping the
callback. -/
inductive Output
  | notif (n : Notification)
  | irc_command (cmd : String)
  | py_error (msg : String)
deriving DecidableEq, Repr

/-- The entries of `self._hooks[session_id]`: a print-hook subscription flag
and the timers, each recording the interval (ms) it was armed with. -/
structure SessionHooks where
  print_hook : Bool := false
  expiry_timer : Option Nat := none
  completion_timer : Option Nat := none
  processing_timer : Option Nat := none
deriving DecidableEq, Repr

/-- The `SessionManager` state: the two dicts keyed by session id, the global
lock flag, and the configuration captured at construction. -/
structure SMState where
  sessions : String → Option XDCCSession
  hooks : String → Option SessionHooks
  is_search_active : Bool
  irc_server_name : String
  irc_search_channel : String
  session_timeout : Nat
  hot_list_completion_delay : Nat

/-- Dict update: `f[k] = v` (or `del f[k]` with `v = none`). -/
def setFn {α : Type} (f : String → Option α) (k : String) (v : Option α) :
    String → Option α :=
  fun k' => if k' = k then v else f k'

/-- What `weechat.info_get("irc_buffer", ...)` / `weechat.buffer_search`
report: whether the server buffer and the channel buffer exist. -/
structure Env where
  server_buffer_found : Bool
  channel_buffer_found : Bool
deriving DecidableEq, Repr

/-- `SessionManager.release_search_lock`. -/
def release_search_lock (st : SMState) : SMState :=
  if st.is_search_active then { st with is_search_active := false } else st

/-- `SessionManager.end_session`: unhook every hook of the session and drop
both dict entries; optionally release the lock. -/
def end_session (st : SMState) (session_id : String) (release_lock : Bool := false) :
    SMState :=
  let st := { st with hooks := setFn st.hooks session_id none,
                      sessions := setFn st.sessions session_id none }
  if release_lock then release_search_lock st else st

/-- `SessionManager.start_new_session` (the lock was already acquired by the
caller). The expiry timer for a search session is armed immediately here, in
the same callback that created the session. -/
def start_new_session (st : SMState) (env : Env) (session_id query session_type : String) :
    SMState × List Output :=
  let session : XDCCSession := { id := session_id, query := query, type := session_type }
  let st := { st with sessions := setFn st.sessions session_id (some session) }
  if env.server_buffer_found = false then
    (end_session st session_id true,
     [.notif (send_error session_id
        ("Error: IRC server '" ++ st.irc_server_name ++ "' not found or connected."))])
  else if env.channel_buffer_found = false then
    (end_session st session_id true,
     [.notif (send_error session_id
        ("Error: IRC channel '" ++ st.irc_search_channel ++ "' not found or joined."))])
  else if session_type = "search" then
    -- print hook, `!search` command, then the expiry timer
    let h : SessionHooks := { print_hook := true, expiry_timer := some st.session_timeout }
    let st := { st with hooks := setFn st.hooks session_id (some h) }
    (st, [.irc_command ("!search " ++ query)])
  else if session_type = "hot" then
    -- print hook, completion timer, then the `!hot` command
    let h : SessionHooks := { print_hook := true,
                              completion_timer := some st.hot_list_completion_delay }
    let st := { st with hooks := setFn st.hooks session_id (some h) }
    (st, [.irc_command "!hot"])
  else
    let st := { st with hooks := setFn st.hooks session_id (some { print_hook := true }) }
    (st, [])

def WEECHAT_RC_OK : Int := 0

def WEECHAT_RC_ERROR : Int := -1

/-- `service_search_cb`, applied to the shell-token list produced by
`shlex.split(args)`. `parts[0], " ".join(parts[1:])` raises `IndexError`
(the usage path) only when there are zero tokens. -/
def service_search_cb (st : SMState) (env : Env) (parts : List String) :
    SMState × List Output × Int :=
  match parts with
  | [] => (st, [], WEECHAT_RC_ERROR)
  | session_id :: rest =>
    let query := String.intercalate " " rest
    if st.is_search_active then
      (st, [.notif (send_rejection session_id
              "Another search is already in progress. Please try again.")], WEECHAT_RC_OK)
    else
      let st := { st with is_search_active := true }
      let r := start_new_session st env session_id query "search"
      (r.1, r.2, WEECHAT_RC_OK)

/-- `service_hot_cb`: `shlex.split(args)[0]` raises only on zero tokens;
extra tokens are ignored. -/
def service_hot_cb (st : SMState) (env : Env) (parts : List String) :
    SMState × List Output × Int :=
  match parts with
  | [] => (st, [], WEECHAT_RC_ERROR)
  | session_id :: _ =>
    if st.is_search_active then
      (st, [.notif (send_rejection session_id
              "Another search is already in progress. Please try again.")], WEECHAT_RC_OK)
    else
      let st := { st with is_search_active := true }
      let r := start_new_session st env session_id "" "hot"
      (r.1, r.2, WEECHAT_RC_OK)

/-- `service_download_cb`: needs `parts[0]` and `parts[1]`; extras ignored. -/
def service_download_cb (st : SMState) (env : Env) (parts : List String) :
    SMState × List Output × Int :=
  match parts with
  | session_id :: choice_id_str :: _ =>
    match st.sessions session_id with
    | none =>
      (st, [.notif (.download_status session_id "error"
        "Download failed: Session expired or is not a valid search session. Please search again.")],
       WEECHAT_RC_OK)
    | some session =>
      if session.type ≠ "search" then
        (st, [.notif (.download_status session_id "error"
          "Download failed: Session expired or is not a valid search session. Please search again.")],
         WEECHAT_RC_OK)
      else
        let r := session.get_download_command choice_id_str
        let st := { st with sessions := setFn st.sessions session_id (some r.1) }
        -- `if command_to_run and target_filename:` — Python truthiness:
        -- both None and the empty string are falsy
        match r.2.1, r.2.2 with
        | some command_to_run, some target_filename =>
          if command_to_run ≠ "" ∧ target_filename ≠ "" then
            if env.channel_buffer_found then
              (end_session st session_id,
               [.irc_command command_to_run,
                .notif (.download_status session_id "success"
                  ("Download command for **`" ++ target_filename ++ "`** (Choice #"
                    ++ choice_id_str ++ ") sent to IRC."))],
               WEECHAT_RC_OK)
            else
              (st, [.notif (.download_status session_id "error"
                ("Download failed: WeeChat could not find the IRC channel '"
                  ++ st.irc_server_name ++ "." ++ st.irc_search_channel
                  ++ "' to send the command."))], WEECHAT_RC_OK)
          else
            (st, [.notif (.download_status session_id "error"
              ("Download failed: Invalid choice ID '" ++ choice_id_str ++ "' for session "
                ++ session_id ++ ". Please select from available options."))], WEECHAT_RC_OK)
        | _, _ =>
          (st, [.notif (.download_status session_id "error"
            ("Download failed: Invalid choice ID '" ++ choice_id_str ++ "' for session "
              ++ session_id ++ ". Please select from available options."))], WEECHAT_RC_OK)
  | _ => (st, [], WEECHAT_RC_ERROR)

/-- The classifier verdicts for one decolorized line, as computed by the four
`irc_parser` functions; `handle_print_callback` consults only the fields
relevant to the session's type. -/
structure LineInfo where
  search_result : Option Record := none
  is_end : Bool := false
  hot_header : Option String := none
  hot_item : Option HotItem := none
deriving DecidableEq, Repr

/-- `SessionManager.handle_print_callback`. On the search end marker the
print hook is popped immediately and a fixed 500 ms settle timer is armed;
on a hot header/item match the completion timer is re-armed for the full
configured delay (only if it is still registered). -/
def handle_print_callback (st : SMState) (session_id : String) (line : LineInfo) :
    SMState :=
  match st.sessions session_id with
  | none => st
  | some session =>
    if session.type = "search" then
      let session := match line.search_result with
        | some r => session.add_search_result r
        | none => session
      let st := { st with sessions := setFn st.sessions session_id (some session) }
      if line.is_end then
        let h := (st.hooks session_id).getD {}
        let h := { h with print_hook := false, processing_timer := some 500 }
        { st with hooks := setFn st.hooks session_id (some h) }
      else st
    else if session.type = "hot" then
      let line_matched := line.hot_header.isSome || line.hot_item.isSome
      let session := match line.hot_header with
        | some s => { session with hot_summary := s }
        | none => session
      let session := match line.hot_item with
        | some it => session.add_hot_item it
        | none => session
      let st := { st with sessions := setFn st.sessions session_id (some session) }
      match st.hooks session_id with
      | some h =>
        if line_matched && h.completion_timer.isSome then
          let h := { h with completion_timer := some st.hot_list_completion_delay }
          { st with hooks := setFn st.hooks session_id (some h) }
        else st
      | none => st
    else st

/-- `SessionManager.handle_final_processing`. Note the empty hot-list branch:
`send_hot_results(..., message=...)` passes a keyword argument the sender
does not accept, so that branch raises `TypeError` before ending the session
or releasing the lock. -/
def handle_final_processing (st : SMState) (session_id : String) :
    SMState × List Output :=
  match st.sessions session_id with
  | none => (release_search_lock st, [])
  | some session =>
    let st := match st.hooks session_id with
      | some h =>
        let h := { h with processing_timer := none, completion_timer := none }
        { st with hooks := setFn st.hooks session_id (some h) }
      | none => st
    if session.type = "search" then
      let session := session.run_generate_choices
      let st := { st with sessions := setFn st.sessions session_id (some session) }
      if session.choices = [] then
        (release_search_lock (end_session st session_id),
         [.notif (.search_results session_id "no_results"
            ("Search for '" ++ session.query ++ "' yielded no results.") none)])
      else
        (release_search_lock st,
         [.notif (.search_results session_id "success"
            ("Found " ++ toString session.choices.length ++ " choices.")
            (some session.choices))])
    else if session.type = "hot" then
      if session.hot_items = [] then
        (st, [.py_error
          "TypeError: send_hot_results() got an unexpected keyword argument 'message'"])
      else
        (release_search_lock (end_session st session_id),
         [.notif (.hot_results session_id "success"
            (some session.hot_summary) (some session.hot_items))])
    else (release_search_lock st, [])

/-- `SessionManager.handle_expiry`: terminate and notify, without touching
the lock (`end_session` is called with `release_lock` left at `False`). -/
def handle_expiry (st : SMState) (session_id : String) : SMState × List Output :=
  match st.sessions session_id with
  | some _ =>
    (end_session st session_id,
     [.notif (.session_expired session_id
        "This search session has expired due to inactivity.")])
  | none => (st, [])

/-- The engine-facing callbacks WeeChat can deliver: the three hooked
commands, a print-hook line, and the two timer classes
(`global_final_processing_cb` serves both the search settle timer and the
hot completion timer; `global_expiry_cb` serves the expiry timer). -/
inductive Ev
  | search_cmd (env : Env) (parts : List String)
  | hot_cmd (env : Env) (parts : List String)
  | download_cmd (env : Env) (parts : List String)
  | print_line (session_id : String) (line : LineInfo)
  | final_timer (session_id : String)
  | expiry_fire (session_id : String)

/-- WeeChat only invokes a callback whose hook is still registered: a print
line is delivered only while the session's print hook exists, and a timer
fires only while its handle exists (unhooking cancels it). -/
def Enabled (st : SMState) : Ev → Prop
  | .search_cmd _ _ => True
  | .hot_cmd _ _ => True
  | .download_cmd _ _ => True
  | .print_line sid _ => ∃ h, st.hooks sid = some h ∧ h.print_hook = true
  | .final_timer sid =>
      ∃ h, st.hooks sid = some h ∧ (h.processing_timer.isSome ∨ h.completion_timer.isSome)
  | .expiry_fire sid => ∃ h, st.hooks sid = some h ∧ h.expiry_timer.isSome

/-- One callback dispatch. -/
def step (st : SMState) : Ev → SMState × List Output
  | .search_cmd env parts =>
    let r := service_search_cb st env parts
    (r.1, r.2.1)
  | .hot_cmd env parts =>
    let r := service_hot_cb st env parts
    (r.1, r.2.1)
  | .download_cmd env parts =>
    let r := service_download_cb st env parts
    (r.1, r.2.1)
  | .print_line sid line => (handle_print_callback st sid line, [])
  | .final_timer sid => handle_final_processing st sid
  | .expiry_fire sid => handle_expiry st sid

/-- The state right after `SessionManager.__init__`. -/
def initial_state (server channel : String) (timeout delay : Nat) : SMState :=
  { sessions := fun _ => none, hooks := fun _ => none, is_search_active := false,
    irc_server_name := server, irc_search_channel := channel,
    session_timeout := timeout, hot_list_completion_delay := delay }

/-- States the engine can actually be in: an initial state, or the result of
delivering an enabled callback to a reachable state. -/
inductive Reachable : SMState → Prop
  | init (server channel : String) (timeout delay : Nat) :
      Reachable (initial_state server channel timeout delay)
  | step {s : SMState} (e : Ev) : Reachable s → Enabled s e → Reachable (step s e).1

/-- A hook set that keeps a session before/inside Finalizing: the stream
subscription or one of the two completion-path timers. (A finalized search
session awaiting download keeps only its expiry timer.) -/
def ActiveHooks (h : SessionHooks) : Prop :=
  h.print_hook = true ∨ h.processing_timer.isSome ∨ h.completion_timer.isSome

/-- `ActiveHooks` read off a hooks dict. -/
def ActiveH (hm : String → Option SessionHooks) (sid : String) : Prop :=
  ∃ h, hm sid = some h ∧ ActiveHooks h

/-- The session with this id is between Created and Finalizing. -/
def Active (st : SMState) (sid : String) : Prop :=
  ActiveH st.hooks sid

/-- Engine well-formedness: (1) at most one session is between Created and
Finalizing; (2) such a session exists only while the global lock is held;
(3) hooks never outlive their session; (4) a search session never owns a
completion timer, and once its settle timer is armed its print hook is gone. -/
def Wf (st : SMState) : Prop :=
  (∀ a b, Active st a → Active st b → a = b) ∧
  (∀ a, Active st a → st.is_search_active = true) ∧
  (∀ sid, st.sessions sid = none → st.hooks sid = none) ∧
  (∀ sid h sess, st.hooks sid = some h → st.sessions sid = some sess →
    sess.type = "search" →
    h.completion_timer = none ∧ (h.processing_timer.isSome → h.print_hook = false)) ∧
  (∀ sid sess, st.sessions sid = some sess → sess.type = "search" ∨ sess.type = "hot")

/-- Timed interpretation of the hot idle-completion debounce: the completion
timer is armed with the configured delay when the session starts (time 0) and
`handle_print_callback` re-arms it to `t + delay` on every qualifying match
at a time `t` before the pending deadline (a match after the deadline finds
the session gone and does nothing). The result is the time at which
`global_final_processing_cb` fires. -/
def hotFinalizeTime (delay : Nat) (match_times : List Nat) : Nat :=
  match_times.foldl (fun deadline t => if t < deadline then t + delay else deadline) delay

end AutoXDCC

namespace Relay

/-- One network action of `bot/weechat_relay_client.py`, in order. -/
inductive IOAction
  | connect
  | send (command : String)
  | recv
deriving DecidableEq, Repr

/-- The failure modes of the relay client. -/
inductive RelayError
  | configuration_error (msg : String)
  | unsupported_feature
  | io_error
deriving DecidableEq, Repr

/-- `reader.readexactly(n)`: exactly `n` bytes, or `IncompleteReadError`. -/
def readexactly (n : Nat) (s : List Nat) : Option (List Nat × List Nat) :=
  if n ≤ s.length then some (s.take n, s.drop n) else none

/-- `struct.unpack('!I', header)`: big-endian byte composition. -/
def beU32 (bs : List Nat) : Nat :=
  bs.foldl (fun acc b => acc * 256 + b) 0

/-- `WeeChatRelayClient._receive` over the byte stream: read a 4-byte
big-endian total length (which counts itself), read `total_length - 4`
further bytes, reject a non-zero compression flag, and return the payload
together with the unconsumed remainder of the stream. A total length below 4
makes `readexactly` raise (negative size), and an empty body makes
`raw_data[0]` raise; both are embedded as `io_error`. -/
def receive (s : List Nat) : Except RelayError (List Nat × List Nat) :=
  match readexactly 4 s with
  | none => .error .io_error
  | some (header, rest) =>
    let total_length := beU32 header
    if total_length < 4 then .error .io_error
    else
      match readexactly (total_length - 4) rest with
      | none => .error .io_error
      | some (raw_data, rest') =>
        match raw_data with
        | [] => .error .io_error
        | compression_type :: message_data =>
          if compression_type ≠ 0 then .error .unsupported_feature
          else .ok (message_data, rest')

/-- The configuration the client reads in `__init__`. -/
structure RelayConfig where
  host : String
  port : Nat
  password : String
deriving DecidableEq, Repr

/-- `WeeChatRelayClient._perform_full_login`, with its network actions made
explicit: `if not self.password: raise ValueError(...)` happens before
`_connect`, so a missing credential produces an empty action trace. The
handshake reply is read from `stream`. -/
def perform_full_login (cfg : RelayConfig) (stream : List Nat) :
    List IOAction × Option RelayError :=
  if cfg.password = "" then
    ([], some (.configuration_error "WeeChat relay password is not set."))
  else
    let acts := [IOAction.connect, IOAction.send "handshake", IOAction.recv]
    match receive stream with
    | .error e => (acts, some e)
    | .ok _ => (acts ++ [IOAction.send ("init password=" ++ cfg.password)], none)

end Relay

namespace AutoXDCC

lemma setFn_same {α : Type} (f : String → Option α) (k : String) (v : Option α) :
    setFn f k v k = v := by simp [setFn]

lemma setFn_other {α : Type} (f : String → Option α) {k k' : String} (v : Option α)
    (h : k' ≠ k) : setFn f k v k' = f k' := by simp [setFn, h]

lemma mem_dedupFirstAux {x : String} :
    ∀ {seen l : List String}, x ∈ dedupFirstAux seen l → x ∈ l
  | _, [], h => by simp [dedupFirstAux] at h
  | seen, y :: ys, h => by
    by_cases hy : y ∈ seen
    · simp only [dedupFirstAux, if_pos hy] at h
      exact List.mem_cons_of_mem _ (mem_dedupFirstAux h)
    · simp only [dedupFirstAux, if_neg hy, List.mem_cons] at h
      rcases h with h | h
      · exact h ▸ List.mem_cons_self _ _
      · exact List.mem_cons_of_mem _ (mem_dedupFirstAux h)

lemma mem_dedupFirst {x : String} {l : List String} (h : x ∈ dedupFirst l) : x ∈ l :=
  mem_dedupFirstAux h

lemma find?_filename_isSome {l : List Record} {fn : String}
    (h : fn ∈ l.map (·.filename)) :
    (l.find? (fun r => r.filename == fn)).isSome := by
  rcases List.mem_map.mp h with ⟨r, hr, hfn⟩
  exact List.find?_isSome.mpr ⟨r, hr, by simp [hfn]⟩

lemma sortGrabsDesc_perm (rs : List Record) : List.Perm (sortGrabsDesc rs) rs :=
  List.perm_insertionSort grabsGE rs

lemma sortGrabsDesc_sorted (rs : List Record) :
    (sortGrabsDesc rs).Pairwise grabsGE :=
  List.sorted_insertionSort grabsGE rs

/-- In a grabs-descending list, the first record carrying a given filename has
at least the grabs of every record carrying that filename. -/
lemma find?_pairwise_max :
    ∀ {l : List Record}, l.Pairwise grabsGE →
      ∀ {fn : String} {b : Record}, l.find? (fun r => r.filename == fn) = some b →
      ∀ x ∈ l, x.filename = fn → x.grabs ≤ b.grabs := by
  intro l hl
  induction l with
  | nil => intro fn b hb; simp [List.find?] at hb
  | cons a t ih =>
    intro fn b hb x hx hxfn
    rcases List.pairwise_cons.mp hl with ⟨ha, ht⟩
    by_cases hpa : a.filename == fn
    · have hba : b = a := by
        simp only [List.find?, hpa] at hb
        exact (Option.some.injEq _ _ ▸ hb.symm)
      subst hba
      rcases List.mem_cons.mp hx with rfl | hxt
      · exact Nat.le_refl _
      · exact ha x hxt
    · have hb' : t.find? (fun r => r.filename == fn) = some b := by
        simpa only [List.find?, hpa] using hb
      rcases List.mem_cons.mp hx with rfl | hxt
      · exact absurd (by simp [hxfn]) hpa
      · exact ih ht hb' x hxt hxfn

/-- The two shape facts about the curated list, proved over the enumeration
with an arbitrary starting index. -/
lemma generate_choices_maps_aux (sorted : List Record) :
    ∀ (u : List String) (k : Nat),
      (∀ fn ∈ u, (sorted.find? (fun r => r.filename == fn)).isSome) →
      (((u.enumFrom k).filterMap fun p =>
          (sorted.find? (fun r => r.filename == p.2)).map
            (fun best => Choice.mk (p.1 + 1) p.2 best.size)).map (·.choice_id)
          = List.range' (k + 1) u.length) ∧
      (((u.enumFrom k).filterMap fun p =>
          (sorted.find? (fun r => r.filename == p.2)).map
            (fun best => Choice.mk (p.1 + 1) p.2 best.size)).map (·.filename)
          = u) := by
  intro u
  induction u with
  | nil => intro k _; simp
  | cons fn u' ih =>
    intro k hu
    rcases Option.isSome_iff_exists.mp (hu fn (List.mem_cons_self _ _)) with ⟨best, hbest⟩
    have ih' := ih (k + 1) (fun g hg => hu g (List.mem_cons_of_mem _ hg))
    simp only [List.enumFrom_cons, List.filterMap_cons, hbest, Option.map_some',
      List.map_cons, List.length_cons, ih'.1, ih'.2]
    constructor
    · rw [List.range'_succ]
    · trivial

end AutoXDCC

namespace AutoXDCC

lemma setFn_setFn {α : Type} (f : String → Option α) (k : String) (v w : Option α) :
    setFn (setFn f k v) k w = setFn f k w := by
  funext k'; by_cases h : k' = k <;> simp [setFn, h]

lemma activeH_setFn_iff {hm : String → Option SessionHooks} {sid : String}
    {v : Option SessionHooks} {a : String} :
    ActiveH (setFn hm sid v) a ↔
      ((a = sid ∧ ∃ h, v = some h ∧ ActiveHooks h) ∨ (a ≠ sid ∧ ActiveH hm a)) := by
  by_cases hk : a = sid <;> simp [ActiveH, setFn, hk]

lemma release_search_lock_sessions (st : SMState) :
    (release_search_lock st).sessions = st.sessions := by
  by_cases h : st.is_search_active <;> simp [release_search_lock, h]

lemma release_search_lock_hooks (st : SMState) :
    (release_search_lock st).hooks = st.hooks := by
  by_cases h : st.is_search_active <;> simp [release_search_lock, h]

lemma release_search_lock_lock (st : SMState) :
    (release_search_lock st).is_search_active = false := by
  by_cases h : st.is_search_active <;> simp [release_search_lock, h]

lemma end_session_sessions (st : SMState) (sid : String) (rl : Bool) :
    (end_session st sid rl).sessions = setFn st.sessions sid none := by
  cases rl <;> simp [end_session, release_search_lock_sessions]

lemma end_session_hooks (st : SMState) (sid : String) (rl : Bool) :
    (end_session st sid rl).hooks = setFn st.hooks sid none := by
  cases rl <;> simp [end_session, release_search_lock_hooks]

lemma end_session_lock_false (st : SMState) (sid : String) :
    (end_session st sid false).is_search_active = st.is_search_active := by
  simp [end_session]

lemma end_session_lock_true (st : SMState) (sid : String) :
    (end_session st sid true).is_search_active = false := by
  simp [end_session, release_search_lock_lock]

lemma sns_ok_search (st : SMState) {env : Env} (sid q : String)
    (hs : env.server_buffer_found = true) (hc : env.channel_buffer_found = true) :
    start_new_session st env sid q "search"
      = ({ st with
            sessions := setFn st.sessions sid (some ⟨sid, q, "search", [], [], "", []⟩),
            hooks := setFn st.hooks sid (some ⟨true, some st.session_timeout, none, none⟩) },
         [.irc_command ("!search " ++ q)]) := by
  simp [start_new_session, hs, hc]

lemma sns_ok_hot (st : SMState) {env : Env} (sid q : String)
    (hs : env.server_buffer_found = true) (hc : env.channel_buffer_found = true) :
    start_new_session st env sid q "hot"
      = ({ st with
            sessions := setFn st.sessions sid (some ⟨sid, q, "hot", [], [], "", []⟩),
            hooks := setFn st.hooks sid
              (some ⟨true, none, some st.hot_list_completion_delay, none⟩) },
         [.irc_command "!hot"]) := by
  simp [start_new_session, hs, hc]

lemma sns_err_fields (st : SMState) {env : Env} (sid q ty : String)
    (henv : env.server_buffer_found = false ∨ env.channel_buffer_found = false) :
    (start_new_session st env sid q ty).1.sessions = setFn st.sessions sid none ∧
    (start_new_session st env sid q ty).1.hooks = setFn st.hooks sid none ∧
    (start_new_session st env sid q ty).1.is_search_active = false ∧
    ∃ m, (start_new_session st env sid q ty).2 = [.notif (send_error sid m)] := by
  rcases henv with h | h
  · refine ⟨?_, ?_, ?_, ?_⟩ <;>
      simp [start_new_session, h, end_session_sessions, end_session_hooks,
        end_session_lock_true, setFn_setFn]
  · by_cases hs : env.server_buffer_found = false
    · refine ⟨?_, ?_, ?_, ?_⟩ <;>
        simp [start_new_session, hs, end_session_sessions, end_session_hooks,
          end_session_lock_true, setFn_setFn]
    · refine ⟨?_, ?_, ?_, ?_⟩ <;>
        simp [start_new_session, hs, h, end_session_sessions, end_session_hooks,
          end_session_lock_true, setFn_setFn]

end AutoXDCC
namespace AutoXDCC

lemma active_iff_of_hooks_eq {st st' : SMState} (h : st'.hooks = st.hooks) (a : String) :
    Active st' a ↔ Active st a := by
  unfold Active; rw [h]

lemma wf_remove {st : SMState} (hwf : Wf st) (sid : String) {st' : SMState}
    (hs : st'.sessions = setFn st.sessions sid none)
    (hh : st'.hooks = setFn st.hooks sid none)
    (hl : st'.is_search_active = st.is_search_active) : Wf st' := by
  have hact : ∀ a, Active st' a → a ≠ sid ∧ Active st a := by
    intro a ha
    unfold Active at ha
    rw [hh, activeH_setFn_iff] at ha
    rcases ha with ⟨_, _, hv, _⟩ | ⟨hne, hA⟩
    · simp at hv
    · exact ⟨hne, hA⟩
  refine ⟨?_, ?_, ?_, ?_, ?_⟩
  · intro a b ha hb
    exact hwf.1 a b (hact a ha).2 (hact b hb).2
  · intro a ha
    rw [hl]; exact hwf.2.1 a (hact a ha).2
  · intro k hk
    rw [hh]
    by_cases hks : k = sid
    · simp [setFn, hks]
    · rw [setFn_other _ _ hks]
      rw [hs, setFn_other _ _ hks] at hk
      exact hwf.2.2.1 k hk
  · intro k h sess hkh hksess hty
    rw [hh] at hkh
    by_cases hks : k = sid
    · rw [hks, setFn_same] at hkh; simp at hkh
    · rw [setFn_other _ _ hks] at hkh
      rw [hs, setFn_other _ _ hks] at hksess
      exact hwf.2.2.2.1 k h sess hkh hksess hty
  · intro k sess hksess
    rw [hs] at hksess
    by_cases hks : k = sid
    · rw [hks, setFn_same] at hksess; simp at hksess
    · rw [setFn_other _ _ hks] at hksess
      exact hwf.2.2.2.2 k sess hksess

lemma wf_remove_release {st : SMState} (hwf : Wf st) (sid : String) {st' : SMState}
    (hactsid : Active st sid)
    (hs : st'.sessions = setFn st.sessions sid none)
    (hh : st'.hooks = setFn st.hooks sid none)
    (hl : st'.is_search_active = false) : Wf st' := by
  have hact : ∀ a, ¬ Active st' a := by
    intro a ha
    unfold Active at ha
    rw [hh, activeH_setFn_iff] at ha
    rcases ha with ⟨_, _, hv, _⟩ | ⟨hne, hA⟩
    · simp at hv
    · exact hne (hwf.1 a sid hA hactsid)
  refine ⟨?_, ?_, ?_, ?_, ?_⟩
  · intro a b ha _; exact absurd ha (hact a)
  · intro a ha; exact absurd ha (hact a)
  · intro k hk
    rw [hh]
    by_cases hks : k = sid
    · simp [setFn, hks]
    · rw [setFn_other _ _ hks]
      rw [hs, setFn_other _ _ hks] at hk
      exact hwf.2.2.1 k hk
  · intro k h sess hkh hksess hty
    rw [hh] at hkh
    by_cases hks : k = sid
    · rw [hks, setFn_same] at hkh; simp at hkh
    · rw [setFn_other _ _ hks] at hkh
      rw [hs, setFn_other _ _ hks] at hksess
      exact hwf.2.2.2.1 k h sess hkh hksess hty
  · intro k sess hksess
    rw [hs] at hksess
    by_cases hks : k = sid
    · rw [hks, setFn_same] at hksess; simp at hksess
    · rw [setFn_other _ _ hks] at hksess
      exact hwf.2.2.2.2 k sess hksess

lemma wf_quiet {st : SMState} (hwf : Wf st) (sid : String) {h1 : SessionHooks}
    {sess' : XDCCSession} {st' : SMState}
    (hactsid : Active st sid)
    (hs : st'.sessions = setFn st.sessions sid (some sess'))
    (hh : st'.hooks = setFn st.hooks sid (some h1))
    (hl : st'.is_search_active = false)
    (hina : ¬ ActiveHooks h1)
    (hty5 : sess'.type = "search" ∨ sess'.type = "hot")
    (hc4 : sess'.type = "search" →
      h1.completion_timer = none ∧ (h1.processing_timer.isSome → h1.print_hook = false)) :
    Wf st' := by
  have hact : ∀ a, ¬ Active st' a := by
    intro a ha
    unfold Active at ha
    rw [hh, activeH_setFn_iff] at ha
    rcases ha with ⟨_, h, hv, hah⟩ | ⟨hne, hA⟩
    · cases hv; exact hina hah
    · exact hne (hwf.1 a sid hA hactsid)
  refine ⟨?_, ?_, ?_, ?_, ?_⟩
  · intro a b ha _; exact absurd ha (hact a)
  · intro a ha; exact absurd ha (hact a)
  · intro k hk
    by_cases hks : k = sid
    · rw [hs, hks, setFn_same] at hk; simp at hk
    · rw [hs, setFn_other _ _ hks] at hk
      rw [hh, setFn_other _ _ hks]
      exact hwf.2.2.1 k hk
  · intro k h sess hkh hksess hty
    by_cases hks : k = sid
    · rw [hh, hks, setFn_same] at hkh
      rw [hs, hks, setFn_same] at hksess
      cases hkh; cases hksess
      exact hc4 hty
    · rw [hh, setFn_other _ _ hks] at hkh
      rw [hs, setFn_other _ _ hks] at hksess
      exact hwf.2.2.2.1 k h sess hkh hksess hty
  · intro k sess hksess
    by_cases hks : k = sid
    · rw [hs, hks, setFn_same] at hksess
      cases hksess; exact hty5
    · rw [hs, setFn_other _ _ hks] at hksess
      exact hwf.2.2.2.2 k sess hksess

end AutoXDCC

namespace AutoXDCC

lemma wf_update_session {st : SMState} (hwf : Wf st) (sid : String)
    {sess sess' : XDCCSession}
    (hses : st.sessions sid = some sess)
    (hty : sess'.type = sess.type) :
    Wf { st with sessions := setFn st.sessions sid (some sess') } := by
  refine ⟨hwf.1, hwf.2.1, ?_, ?_, ?_⟩
  · intro k hk
    dsimp only at hk ⊢
    by_cases hks : k = sid
    · rw [hks, setFn_same] at hk; simp at hk
    · rw [setFn_other _ _ hks] at hk
      exact hwf.2.2.1 k hk
  · intro k h s hkh hksess htys
    dsimp only at hkh hksess
    by_cases hks : k = sid
    · rw [hks, setFn_same] at hksess
      cases hksess
      rw [hty] at htys
      exact hwf.2.2.2.1 sid h sess (hks ▸ hkh) hses htys
    · rw [setFn_other _ _ hks] at hksess
      exact hwf.2.2.2.1 k h s hkh hksess htys
  · intro k s hksess
    dsimp only at hksess
    by_cases hks : k = sid
    · rw [hks, setFn_same] at hksess
      cases hksess
      rw [hty]
      exact hwf.2.2.2.2 sid sess hses
    · rw [setFn_other _ _ hks] at hksess
      exact hwf.2.2.2.2 k s hksess

lemma wf_create {st : SMState} (hwf : Wf st) (hnoact : ∀ a, ¬ Active st a)
    (sid : String) (sess : XDCCSession) (h : SessionHooks)
    (hty : sess.type = "search" ∨ sess.type = "hot")
    (hc4 : sess.type = "search" →
      h.completion_timer = none ∧ (h.processing_timer.isSome → h.print_hook = false)) :
    Wf { st with is_search_active := true,
                 sessions := setFn st.sessions sid (some sess),
                 hooks := setFn st.hooks sid (some h) } := by
  have hact : ∀ a,
      Active { st with is_search_active := true,
                       sessions := setFn st.sessions sid (some sess),
                       hooks := setFn st.hooks sid (some h) } a → a = sid := by
    intro a ha
    unfold Active at ha
    dsimp only at ha
    rw [activeH_setFn_iff] at ha
    rcases ha with ⟨hk, _⟩ | ⟨_, hA⟩
    · exact hk
    · exact absurd hA (hnoact a)
  refine ⟨?_, ?_, ?_, ?_, ?_⟩
  · intro a b ha hb; rw [hact a ha, hact b hb]
  · intro a _; rfl
  · intro k hk
    dsimp only at hk ⊢
    by_cases hks : k = sid
    · rw [hks, setFn_same] at hk; simp at hk
    · rw [setFn_other _ _ hks] at hk
      rw [setFn_other _ _ hks]
      exact hwf.2.2.1 k hk
  · intro k h' s hkh hksess htys
    dsimp only at hkh hksess
    by_cases hks : k = sid
    · rw [hks, setFn_same] at hkh hksess
      cases hkh; cases hksess
      exact hc4 htys
    · rw [setFn_other _ _ hks] at hkh hksess
      exact hwf.2.2.2.1 k h' s hkh hksess htys
  · intro k s hksess
    dsimp only at hksess
    by_cases hks : k = sid
    · rw [hks, setFn_same] at hksess; cases hksess; exact hty
    · rw [setFn_other _ _ hks] at hksess
      exact hwf.2.2.2.2 k s hksess

lemma wf_err_state {st : SMState} (hwf : Wf st) (sid : String) {st' : SMState}
    (hnoact : ∀ a, ¬ Active st a)
    (hs : st'.sessions = setFn st.sessions sid none)
    (hh : st'.hooks = setFn st.hooks sid none)
    (hl : st'.is_search_active = false) : Wf st' := by
  have hact : ∀ a, ¬ Active st' a := by
    intro a ha
    unfold Active at ha
    rw [hh, activeH_setFn_iff] at ha
    rcases ha with ⟨_, _, hv, _⟩ | ⟨_, hA⟩
    · simp at hv
    · exact hnoact a hA
  refine ⟨?_, ?_, ?_, ?_, ?_⟩
  · intro a b ha _; exact absurd ha (hact a)
  · intro a ha; exact absurd ha (hact a)
  · intro k hk
    rw [hh]
    by_cases hks : k = sid
    · simp [setFn, hks]
    · rw [setFn_other _ _ hks]
      rw [hs, setFn_other _ _ hks] at hk
      exact hwf.2.2.1 k hk
  · intro k h sess hkh hksess hty
    rw [hh] at hkh
    by_cases hks : k = sid
    · rw [hks, setFn_same] at hkh; simp at hkh
    · rw [setFn_other _ _ hks] at hkh
      rw [hs, setFn_other _ _ hks] at hksess
      exact hwf.2.2.2.1 k h sess hkh hksess hty
  · intro k sess hksess
    rw [hs] at hksess
    by_cases hks : k = sid
    · rw [hks, setFn_same] at hksess; simp at hksess
    · rw [setFn_other _ _ hks] at hksess
      exact hwf.2.2.2.2 k sess hksess

lemma wf_set_hooks {st : SMState} (hwf : Wf st) (sid : String)
    {h0 h1 : SessionHooks} {sess : XDCCSession}
    (hh0 : st.hooks sid = some h0) (hact0 : ActiveHooks h0)
    (hses : st.sessions sid = some sess)
    (hc4 : sess.type = "search" →
      h1.completion_timer = none ∧ (h1.processing_timer.isSome → h1.print_hook = false)) :
    Wf { st with hooks := setFn st.hooks sid (some h1) } := by
  have hsidact : Active st sid := ⟨h0, hh0, hact0⟩
  have hact : ∀ a,
      Active { st with hooks := setFn st.hooks sid (some h1) } a → a = sid ∨ Active st a := by
    intro a ha
    unfold Active at ha
    dsimp only at ha
    rw [activeH_setFn_iff] at ha
    rcases ha with ⟨hk, _⟩ | ⟨_, hA⟩
    · exact Or.inl hk
    · exact Or.inr hA
  refine ⟨?_, ?_, ?_, ?_, ?_⟩
  · intro a b ha hb
    have ha' : a = sid := by
      rcases hact a ha with h | h
      · exact h
      · exact hwf.1 a sid h hsidact
    have hb' : b = sid := by
      rcases hact b hb with h | h
      · exact h
      · exact hwf.1 b sid h hsidact
    rw [ha', hb']
  · intro a _
    exact hwf.2.1 sid hsidact
  · intro k hk
    dsimp only at hk ⊢
    by_cases hks : k = sid
    · rw [hks] at hk
      rw [hses] at hk; simp at hk
    · rw [setFn_other _ _ hks]
      exact hwf.2.2.1 k hk
  · intro k h s hkh hksess htys
    dsimp only at hkh hksess
    by_cases hks : k = sid
    · rw [hks, setFn_same] at hkh
      cases hkh
      rw [hks] at hksess
      rw [hses] at hksess
      cases hksess
      exact hc4 htys
    · rw [setFn_other _ _ hks] at hkh
      exact hwf.2.2.2.1 k h s hkh hksess htys
  · intro k s hksess
    dsimp only at hksess
    exact hwf.2.2.2.2 k s hksess

lemma wf_rearm {st : SMState} (hwf : Wf st) (sid : String)
    {h0 h1 : SessionHooks} {sess sess' : XDCCSession}
    (hh0 : st.hooks sid = some h0) (hact0 : ActiveHooks h0)
    (hses : st.sessions sid = some sess)
    (hty : sess'.type = sess.type)
    (hc4 : sess'.type = "search" →
      h1.completion_timer = none ∧ (h1.processing_timer.isSome → h1.print_hook = false)) :
    Wf { st with sessions := setFn st.sessions sid (some sess'),
                 hooks := setFn st.hooks sid (some h1) } := by
  have hsidact : Active st sid := ⟨h0, hh0, hact0⟩
  have hact : ∀ a,
      Active { st with sessions := setFn st.sessions sid (some sess'),
                       hooks := setFn st.hooks sid (some h1) } a → a = sid := by
    intro a ha
    unfold Active at ha
    dsimp only at ha
    rw [activeH_setFn_iff] at ha
    rcases ha with ⟨hk, _⟩ | ⟨_, hA⟩
    · exact hk
    · exact hwf.1 a sid hA hsidact
  refine ⟨?_, ?_, ?_, ?_, ?_⟩
  · intro a b ha hb; rw [hact a ha, hact b hb]
  · intro a _
    exact hwf.2.1 sid hsidact
  · intro k hk
    dsimp only at hk ⊢
    by_cases hks : k = sid
    · rw [hks, setFn_same] at hk
      simp at hk
    · rw [setFn_other _ _ hks] at hk
      rw [setFn_other _ _ hks]
      exact hwf.2.2.1 k hk
  · intro k h s hkh hksess htys
    dsimp only at hkh hksess
    by_cases hks : k = sid
    · rw [hks, setFn_same] at hkh hksess
      cases hkh; cases hksess
      exact hc4 htys
    · rw [setFn_other _ _ hks] at hkh hksess
      exact hwf.2.2.2.1 k h s hkh hksess htys
  · intro k s hksess
    dsimp only at hksess
    by_cases hks : k = sid
    · rw [hks, setFn_same] at hksess
      cases hksess
      rw [hty]
      exact hwf.2.2.2.2 sid sess hses
    · rw [setFn_other _ _ hks] at hksess
      exact hwf.2.2.2.2 k s hksess

end AutoXDCC
namespace AutoXDCC

lemma not_active_of_unlocked {st : SMState} (hwf : Wf st)
    (hl : st.is_search_active = false) : ∀ a, ¬ Active st a := by
  intro a ha
  have h := hwf.2.1 a ha
  rw [h] at hl
  exact Bool.noConfusion hl

lemma service_search_cb_busy {st : SMState} (env : Env) (sid : String) (rest : List String)
    (h : st.is_search_active = true) :
    service_search_cb st env (sid :: rest)
      = (st, [.notif (send_rejection sid
          "Another search is already in progress. Please try again.")], WEECHAT_RC_OK) := by
  simp [service_search_cb, h]

lemma service_search_cb_free {st : SMState} (env : Env) (sid : String) (rest : List String)
    (h : st.is_search_active = false) :
    service_search_cb st env (sid :: rest)
      = ((start_new_session { st with is_search_active := true } env sid
            (String.intercalate " " rest) "search").1,
         (start_new_session { st with is_search_active := true } env sid
            (String.intercalate " " rest) "search").2, WEECHAT_RC_OK) := by
  simp [service_search_cb, h]

lemma service_hot_cb_busy {st : SMState} (env : Env) (sid : String) (rest : List String)
    (h : st.is_search_active = true) :
    service_hot_cb st env (sid :: rest)
      = (st, [.notif (send_rejection sid
          "Another search is already in progress. Please try again.")], WEECHAT_RC_OK) := by
  simp [service_hot_cb, h]

lemma service_hot_cb_free {st : SMState} (env : Env) (sid : String) (rest : List String)
    (h : st.is_search_active = false) :
    service_hot_cb st env (sid :: rest)
      = ((start_new_session { st with is_search_active := true } env sid "" "hot").1,
         (start_new_session { st with is_search_active := true } env sid "" "hot").2,
         WEECHAT_RC_OK) := by
  simp [service_hot_cb, h]

lemma wf_service_search {st : SMState} (hwf : Wf st) (env : Env) (parts : List String) :
    Wf (service_search_cb st env parts).1 := by
  match parts with
  | [] => exact hwf
  | sid :: rest =>
    by_cases hl : st.is_search_active
    · rw [service_search_cb_busy env sid rest hl]; exact hwf
    · have hl' : st.is_search_active = false := by simpa using hl
      rw [service_search_cb_free env sid rest hl']
      dsimp only
      have hnoact := not_active_of_unlocked hwf hl'
      cases hsv : env.server_buffer_found with
      | false =>
        obtain ⟨h1, h2, h3, _⟩ := sns_err_fields { st with is_search_active := true } sid
          (String.intercalate " " rest) "search" (Or.inl hsv)
        exact wf_err_state hwf sid hnoact h1 h2 h3
      | true =>
        cases hcv : env.channel_buffer_found with
        | false =>
          obtain ⟨h1, h2, h3, _⟩ := sns_err_fields { st with is_search_active := true } sid
            (String.intercalate " " rest) "search" (Or.inr hcv)
          exact wf_err_state hwf sid hnoact h1 h2 h3
        | true =>
          rw [sns_ok_search { st with is_search_active := true } sid
            (String.intercalate " " rest) hsv hcv]
          exact wf_create hwf hnoact sid _ _ (Or.inl rfl)
            (fun _ => ⟨rfl, fun hp => by simp at hp⟩)

lemma wf_service_hot {st : SMState} (hwf : Wf st) (env : Env) (parts : List String) :
    Wf (service_hot_cb st env parts).1 := by
  match parts with
  | [] => exact hwf
  | sid :: rest =>
    by_cases hl : st.is_search_active
    · rw [service_hot_cb_busy env sid rest hl]; exact hwf
    · have hl' : st.is_search_active = false := by simpa using hl
      rw [service_hot_cb_free env sid rest hl']
      dsimp only
      have hnoact := not_active_of_unlocked hwf hl'
      cases hsv : env.server_buffer_found with
      | false =>
        obtain ⟨h1, h2, h3, _⟩ := sns_err_fields { st with is_search_active := true } sid
          "" "hot" (Or.inl hsv)
        exact wf_err_state hwf sid hnoact h1 h2 h3
      | true =>
        cases hcv : env.channel_buffer_found with
        | false =>
          obtain ⟨h1, h2, h3, _⟩ := sns_err_fields { st with is_search_active := true } sid
            "" "hot" (Or.inr hcv)
          exact wf_err_state hwf sid hnoact h1 h2 h3
        | true =>
          rw [sns_ok_hot { st with is_search_active := true } sid "" hsv hcv]
          exact wf_create hwf hnoact sid _ _ (Or.inr rfl)
            (fun hty => by simp at hty)

end AutoXDCC
namespace AutoXDCC

lemma get_download_command_session (s : XDCCSession) (cid : String) :
    (s.get_download_command cid).1.type = s.type ∧
    (s.get_download_command cid).1.id = s.id ∧
    (s.get_download_command cid).1.choices = s.choices ∧
    List.Perm (s.get_download_command cid).1.search_results s.search_results := by
  unfold XDCCSession.get_download_command
  split
  · exact ⟨rfl, rfl, rfl, List.Perm.refl _⟩
  · split
    · exact ⟨rfl, rfl, rfl, List.Perm.refl _⟩
    · dsimp only
      split
      · exact ⟨rfl, rfl, rfl, sortGrabsDesc_perm _⟩
      · exact ⟨rfl, rfl, rfl, sortGrabsDesc_perm _⟩

lemma wf_service_download {st : SMState} (hwf : Wf st) (env : Env) (parts : List String) :
    Wf (service_download_cb st env parts).1 := by
  match parts with
  | [] => exact hwf
  | [x] => exact hwf
  | sid :: cid :: rest =>
    cases hses : st.sessions sid with
    | none =>
      have heq : (service_download_cb st env (sid :: cid :: rest)).1 = st := by
        simp [service_download_cb, hses]
      rw [heq]; exact hwf
    | some session =>
      by_cases hty : session.type = "search"
      · have htype := (get_download_command_session session cid).1
        cases hc1 : (session.get_download_command cid).2.1 with
        | none =>
          have heq : (service_download_cb st env (sid :: cid :: rest)).1
              = { st with sessions := setFn st.sessions sid (some (session.get_download_command cid).1) } := by
            simp [service_download_cb, hses, hty, hc1]
          rw [heq]
          exact wf_update_session hwf sid hses (htype.trans hty ▸ htype)
        | some cmd =>
          cases hc2 : (session.get_download_command cid).2.2 with
          | none =>
            have heq : (service_download_cb st env (sid :: cid :: rest)).1
                = { st with sessions := setFn st.sessions sid (some (session.get_download_command cid).1) } := by
              simp [service_download_cb, hses, hty, hc1, hc2]
            rw [heq]
            exact wf_update_session hwf sid hses htype
          | some fn =>
            by_cases hguard : ¬cmd = "" ∧ ¬fn = ""
            · cases hcv : env.channel_buffer_found with
              | false =>
                have heq : (service_download_cb st env (sid :: cid :: rest)).1
                    = { st with sessions := setFn st.sessions sid (some (session.get_download_command cid).1) } := by
                  simp [service_download_cb, hses, hty, hc1, hc2, hguard, hcv]
                rw [heq]
                exact wf_update_session hwf sid hses htype
              | true =>
                have hs' : (service_download_cb st env (sid :: cid :: rest)).1.sessions
                    = setFn st.sessions sid none := by
                  simp [service_download_cb, hses, hty, hc1, hc2, hguard, hcv,
                    end_session_sessions, setFn_setFn]
                have hh' : (service_download_cb st env (sid :: cid :: rest)).1.hooks
                    = setFn st.hooks sid none := by
                  simp [service_download_cb, hses, hty, hc1, hc2, hguard, hcv,
                    end_session_hooks]
                have hl' : (service_download_cb st env (sid :: cid :: rest)).1.is_search_active
                    = st.is_search_active := by
                  simp [service_download_cb, hses, hty, hc1, hc2, hguard, hcv,
                    end_session_lock_false]
                exact wf_remove hwf sid hs' hh' hl'
            · have heq : (service_download_cb st env (sid :: cid :: rest)).1
                  = { st with sessions := setFn st.sessions sid (some (session.get_download_command cid).1) } := by
                simp [service_download_cb, hses, hty, hc1, hc2, hguard]
              rw [heq]
              exact wf_update_session hwf sid hses htype
      · have heq : (service_download_cb st env (sid :: cid :: rest)).1 = st := by
          simp [service_download_cb, hses, hty]
        rw [heq]; exact hwf

end AutoXDCC
namespace AutoXDCC

lemma add_search_result_type (s : XDCCSession) (r : Record) :
    (s.add_search_result r).type = s.type := rfl

lemma wf_handle_print {st : SMState} (hwf : Wf st) (sid : String) (line : LineInfo)
    (hen : ∃ h, st.hooks sid = some h ∧ h.print_hook = true) :
    Wf (handle_print_callback st sid line) := by
  obtain ⟨h0, hh0, hp0⟩ := hen
  have hact0 : ActiveHooks h0 := Or.inl hp0
  cases hses : st.sessions sid with
  | none =>
    have heq : handle_print_callback st sid line = st := by
      simp [handle_print_callback, hses]
    rw [heq]; exact hwf
  | some session =>
    by_cases hty : session.type = "search"
    · by_cases hend : line.is_end
      · cases hres : line.search_result with
        | none =>
          have heq : handle_print_callback st sid line
              = { st with sessions := setFn st.sessions sid (some session),
                          hooks := setFn st.hooks sid (some { h0 with print_hook := false, processing_timer := some 500 }) } := by
            simp [handle_print_callback, hses, hty, hend, hres, hh0]
          rw [heq]
          have hc40 := hwf.2.2.2.1 sid h0 session hh0 hses hty
          exact wf_rearm hwf sid hh0 hact0 hses rfl
            (fun _ => ⟨hc40.1, fun _ => rfl⟩)
        | some r =>
          have heq : handle_print_callback st sid line
              = { st with sessions := setFn st.sessions sid (some (session.add_search_result r)),
                          hooks := setFn st.hooks sid (some { h0 with print_hook := false, processing_timer := some 500 }) } := by
            simp [handle_print_callback, hses, hty, hend, hres, hh0]
          rw [heq]
          have hc40 := hwf.2.2.2.1 sid h0 session hh0 hses hty
          exact wf_rearm hwf sid hh0 hact0 hses (add_search_result_type session r)
            (fun _ => ⟨hc40.1, fun _ => rfl⟩)
      · cases hres : line.search_result with
        | none =>
          have heq : handle_print_callback st sid line
              = { st with sessions := setFn st.sessions sid (some session) } := by
            simp [handle_print_callback, hses, hty, hend, hres]
          rw [heq]
          exact wf_update_session hwf sid hses rfl
        | some r =>
          have heq : handle_print_callback st sid line
              = { st with sessions := setFn st.sessions sid (some (session.add_search_result r)) } := by
            simp [handle_print_callback, hses, hty, hend, hres]
          rw [heq]
          exact wf_update_session hwf sid hses (add_search_result_type session r)
    · by_cases hty2 : session.type = "hot"
      · cases hcomp : h0.completion_timer with
        | none =>
          have hm : ∀ b : Bool, (b && h0.completion_timer.isSome) = false := by
            intro b; rw [hcomp]; simp
          cases hhd : line.hot_header with
          | none =>
            cases hit : line.hot_item with
            | none =>
              have heq : handle_print_callback st sid line
                  = { st with sessions := setFn st.sessions sid (some session) } := by
                simp [handle_print_callback, hses, hty, hty2, hhd, hit, hh0, hm]
              rw [heq]
              exact wf_update_session hwf sid hses rfl
            | some it =>
              have heq : handle_print_callback st sid line
                  = { st with sessions := setFn st.sessions sid (some (session.add_hot_item it)) } := by
                simp [handle_print_callback, hses, hty, hty2, hhd, hit, hh0, hm]
              rw [heq]
              exact wf_update_session hwf sid hses rfl
          | some hd =>
            cases hit : line.hot_item with
            | none =>
              have heq : handle_print_callback st sid line
                  = { st with sessions := setFn st.sessions sid (some { session with hot_summary := hd }) } := by
                simp [handle_print_callback, hses, hty, hty2, hhd, hit, hh0, hm]
              rw [heq]
              exact wf_update_session hwf sid hses rfl
            | some it =>
              have heq : handle_print_callback st sid line
                  = { st with sessions := setFn st.sessions sid (some (XDCCSession.add_hot_item { session with hot_summary := hd } it)) } := by
                simp [handle_print_callback, hses, hty, hty2, hhd, hit, hh0, hm]
              rw [heq]
              exact wf_update_session hwf sid hses rfl
        | some d =>
          have hcs : h0.completion_timer.isSome = true := by rw [hcomp]; rfl
          cases hhd : line.hot_header with
          | none =>
            cases hit : line.hot_item with
            | none =>
              have heq : handle_print_callback st sid line
                  = { st with sessions := setFn st.sessions sid (some session) } := by
                simp [handle_print_callback, hses, hty, hty2, hhd, hit, hh0]
              rw [heq]
              exact wf_update_session hwf sid hses rfl
            | some it =>
              have heq : handle_print_callback st sid line
                  = { st with sessions := setFn st.sessions sid (some (session.add_hot_item it)),
                              hooks := setFn st.hooks sid (some { h0 with completion_timer := some st.hot_list_completion_delay }) } := by
                simp [handle_print_callback, hses, hty, hty2, hhd, hit, hh0, hcs]
              rw [heq]
              exact wf_rearm hwf sid hh0 hact0 hses rfl
                (fun hty' => absurd hty' hty)
          | some hd =>
            cases hit : line.hot_item with
            | none =>
              have heq : handle_print_callback st sid line
                  = { st with sessions := setFn st.sessions sid (some { session with hot_summary := hd }),
                              hooks := setFn st.hooks sid (some { h0 with completion_timer := some st.hot_list_completion_delay }) } := by
                simp [handle_print_callback, hses, hty, hty2, hhd, hit, hh0, hcs]
              rw [heq]
              exact wf_rearm hwf sid hh0 hact0 hses rfl
                (fun hty' => absurd hty' hty)
            | some it =>
              have heq : handle_print_callback st sid line
                  = { st with sessions := setFn st.sessions sid (some (XDCCSession.add_hot_item { session with hot_summary := hd } it)),
                              hooks := setFn st.hooks sid (some { h0 with completion_timer := some st.hot_list_completion_delay }) } := by
                simp [handle_print_callback, hses, hty, hty2, hhd, hit, hh0, hcs]
              rw [heq]
              exact wf_rearm hwf sid hh0 hact0 hses rfl
                (fun hty' => absurd hty' hty)
      · have heq : handle_print_callback st sid line = st := by
          simp [handle_print_callback, hses, hty, hty2]
        rw [heq]; exact hwf

end AutoXDCC
namespace AutoXDCC

lemma wf_handle_final {st : SMState} (hwf : Wf st) (sid : String)
    (hen : ∃ h, st.hooks sid = some h ∧
      (h.processing_timer.isSome ∨ h.completion_timer.isSome)) :
    Wf (handle_final_processing st sid).1 := by
  obtain ⟨h0, hh0, hdisj⟩ := hen
  have hact0 : ActiveHooks h0 := Or.inr hdisj
  have hsidact : Active st sid := ⟨h0, hh0, hact0⟩
  cases hses : st.sessions sid with
  | none =>
    have hcontra := hwf.2.2.1 sid hses
    rw [hcontra] at hh0
    exact Option.noConfusion hh0
  | some session =>
    rcases hwf.2.2.2.2 sid session hses with hty | hty
    · have hc40 := hwf.2.2.2.1 sid h0 session hh0 hses hty
      have hproc : h0.processing_timer.isSome = true := by
        rcases hdisj with h | h
        · exact h
        · rw [hc40.1] at h; exact Bool.noConfusion h
      have hprint : h0.print_hook = false := hc40.2 hproc
      by_cases hch : (session.run_generate_choices).choices = []
      · have hs' : (handle_final_processing st sid).1.sessions
            = setFn st.sessions sid none := by
          simp [handle_final_processing, hses, hh0, hty, hch, end_session_sessions,
            release_search_lock_sessions, setFn_setFn]
        have hh' : (handle_final_processing st sid).1.hooks
            = setFn st.hooks sid none := by
          simp [handle_final_processing, hses, hh0, hty, hch, end_session_hooks,
            release_search_lock_hooks, setFn_setFn]
        have hl' : (handle_final_processing st sid).1.is_search_active = false := by
          simp [handle_final_processing, hses, hh0, hty, hch, release_search_lock_lock]
        exact wf_remove_release hwf sid hsidact hs' hh' hl'
      · have hs' : (handle_final_processing st sid).1.sessions
            = setFn st.sessions sid (some session.run_generate_choices) := by
          simp [handle_final_processing, hses, hh0, hty, hch, release_search_lock_sessions]
        have hh' : (handle_final_processing st sid).1.hooks
            = setFn st.hooks sid (some { h0 with processing_timer := none, completion_timer := none }) := by
          simp [handle_final_processing, hses, hh0, hty, hch, release_search_lock_hooks]
        have hl' : (handle_final_processing st sid).1.is_search_active = false := by
          simp [handle_final_processing, hses, hh0, hty, hch, release_search_lock_lock]
        refine wf_quiet hwf sid hsidact hs' hh' hl' ?_ ?_ ?_
        · intro hA
          rcases hA with h | h | h <;> simp [hprint] at h
        · exact Or.inl hty
        · intro _
          refine ⟨rfl, fun hp => ?_⟩
          simp at hp
    · have htyne : ¬ session.type = "search" := by
        rw [hty]; intro hc; exact absurd hc (by decide)
      by_cases hitems : session.hot_items = []
      · have heq : (handle_final_processing st sid).1
            = { st with hooks := setFn st.hooks sid (some { h0 with processing_timer := none, completion_timer := none }) } := by
          simp [handle_final_processing, hses, hh0, hty, htyne, hitems]
        rw [heq]
        exact wf_set_hooks hwf sid hh0 hact0 hses (fun h => absurd h htyne)
      · have hs' : (handle_final_processing st sid).1.sessions
            = setFn st.sessions sid none := by
          simp [handle_final_processing, hses, hh0, hty, htyne, hitems,
            end_session_sessions, release_search_lock_sessions, setFn_setFn]
        have hh' : (handle_final_processing st sid).1.hooks
            = setFn st.hooks sid none := by
          simp [handle_final_processing, hses, hh0, hty, htyne, hitems,
            end_session_hooks, release_search_lock_hooks, setFn_setFn]
        have hl' : (handle_final_processing st sid).1.is_search_active = false := by
          simp [handle_final_processing, hses, hh0, hty, htyne, hitems,
            release_search_lock_lock]
        exact wf_remove_release hwf sid hsidact hs' hh' hl'

lemma wf_handle_expiry {st : SMState} (hwf : Wf st) (sid : String) :
    Wf (handle_expiry st sid).1 := by
  cases hses : st.sessions sid with
  | none =>
    have heq : (handle_expiry st sid).1 = st := by simp [handle_expiry, hses]
    rw [heq]; exact hwf
  | some s =>
    have hs' : (handle_expiry st sid).1.sessions = setFn st.sessions sid none := by
      simp [handle_expiry, hses, end_session_sessions]
    have hh' : (handle_expiry st sid).1.hooks = setFn st.hooks sid none := by
      simp [handle_expiry, hses, end_session_hooks]
    have hl' : (handle_expiry st sid).1.is_search_active = st.is_search_active := by
      simp [handle_expiry, hses, end_session_lock_false]
    exact wf_remove hwf sid hs' hh' hl'

lemma wf_initial (server channel : String) (timeout delay : Nat) :
    Wf (initial_state server channel timeout delay) := by
  refine ⟨?_, ?_, ?_, ?_, ?_⟩
  · intro a b ha _
    rcases ha with ⟨h, hh, _⟩
    exact Option.noConfusion hh
  · intro a ha
    rcases ha with ⟨h, hh, _⟩
    exact Option.noConfusion hh
  · intro _ _; rfl
  · intro k h sess hkh _ _
    exact Option.noConfusion hkh
  · intro k sess hksess
    exact Option.noConfusion hksess

lemma wf_step {st : SMState} (e : Ev) (hwf : Wf st) (hen : Enabled st e) :
    Wf (step st e).1 := by
  cases e with
  | search_cmd env parts => exact wf_service_search hwf env parts
  | hot_cmd env parts => exact wf_service_hot hwf env parts
  | download_cmd env parts => exact wf_service_download hwf env parts
  | print_line sid line => exact wf_handle_print hwf sid line hen
  | final_timer sid => exact wf_handle_final hwf sid hen
  | expiry_fire sid => exact wf_handle_expiry hwf sid

lemma wf_reachable {st : SMState} (h : Reachable st) : Wf st := by
  induction h with
  | init server channel timeout delay => exact wf_initial server channel timeout delay
  | step e _ hen ih => exact wf_step e ih hen

end AutoXDCC
namespace AutoXDCC

lemma handle_print_frame (st : SMState) (pid : String) (line : LineInfo) {k : String}
    (hne : k ≠ pid) :
    (handle_print_callback st pid line).sessions k = st.sessions k ∧
    (handle_print_callback st pid line).hooks k = st.hooks k := by
  constructor
  · unfold handle_print_callback
    repeat' split
    all_goals try (cases hhp : st.hooks pid <;> simp only [hhp])
    all_goals repeat' split
    all_goals simp [setFn_other _ _ hne]
  · unfold handle_print_callback
    repeat' split
    all_goals try (cases hhp : st.hooks pid <;> simp only [hhp])
    all_goals repeat' split
    all_goals simp [setFn_other _ _ hne]

end AutoXDCC
namespace AutoXDCC

lemma handle_final_frame (st : SMState) (pid : String) {k : String}
    (hne : k ≠ pid) :
    (handle_final_processing st pid).1.sessions k = st.sessions k ∧
    (handle_final_processing st pid).1.hooks k = st.hooks k := by
  constructor
  · unfold handle_final_processing
    repeat' split
    all_goals simp [apply_ite, ite_apply, end_session_sessions, release_search_lock_sessions,
      setFn_setFn, setFn_other _ _ hne]
  · unfold handle_final_processing
    repeat' split
    all_goals simp [apply_ite, ite_apply, end_session_hooks, release_search_lock_hooks,
      setFn_setFn, setFn_other _ _ hne]

lemma handle_expiry_frame (st : SMState) (pid : String) {k : String}
    (hne : k ≠ pid) :
    (handle_expiry st pid).1.sessions k = st.sessions k ∧
    (handle_expiry st pid).1.hooks k = st.hooks k := by
  constructor
  · unfold handle_expiry
    repeat' split
    all_goals simp [end_session_sessions, setFn_other _ _ hne]
  · unfold handle_expiry
    repeat' split
    all_goals simp [end_session_hooks, setFn_other _ _ hne]

/-- Across one dispatched callback, a `hot_results` webhook can be produced
only by the final-processing timer callback. -/
lemma hot_results_only_final {st : SMState} {e : Ev} {sid status : String}
    {summary : Option String} {items : Option (List HotItem)}
    (hmem : Output.notif (.hot_results sid status summary items) ∈ (step st e).2) :
    ∃ fid, e = .final_timer fid := by
  cases e with
  | search_cmd env parts =>
    exfalso
    unfold step service_search_cb start_new_session at hmem
    dsimp only at hmem
    repeat' split at hmem
    all_goals simp [send_rejection, send_error] at hmem
  | hot_cmd env parts =>
    exfalso
    unfold step service_hot_cb start_new_session at hmem
    dsimp only at hmem
    repeat' split at hmem
    all_goals simp [send_rejection, send_error] at hmem
  | download_cmd env parts =>
    exfalso
    unfold step service_download_cb at hmem
    dsimp only at hmem
    repeat' split at hmem
    all_goals simp at hmem
  | print_line pid line =>
    exfalso
    simp [step] at hmem
  | final_timer pid => exact ⟨pid, rfl⟩
  | expiry_fire pid =>
    exfalso
    simp only [step] at hmem
    unfold handle_expiry at hmem
    repeat' split at hmem
    all_goals simp at hmem

end AutoXDCC
namespace AutoXDCC

lemma service_download_frame (st : SMState) (env : Env) (did cid : String)
    (rest : List String) {k : String} (hne : k ≠ did) :
    (service_download_cb st env (did :: cid :: rest)).1.sessions k = st.sessions k ∧
    (service_download_cb st env (did :: cid :: rest)).1.hooks k = st.hooks k := by
  cases hses : st.sessions did with
  | none =>
    have heq : (service_download_cb st env (did :: cid :: rest)).1 = st := by
      simp [service_download_cb, hses]
    rw [heq]; exact ⟨rfl, rfl⟩
  | some session =>
    by_cases hty : session.type = "search"
    · cases hc1 : (session.get_download_command cid).2.1 with
      | none =>
        have heq : (service_download_cb st env (did :: cid :: rest)).1
            = { st with sessions := setFn st.sessions did (some (session.get_download_command cid).1) } := by
          simp [service_download_cb, hses, hty, hc1]
        rw [heq]
        exact ⟨setFn_other _ _ hne, rfl⟩
      | some cmd =>
        cases hc2 : (session.get_download_command cid).2.2 with
        | none =>
          have heq : (service_download_cb st env (did :: cid :: rest)).1
              = { st with sessions := setFn st.sessions did (some (session.get_download_command cid).1) } := by
            simp [service_download_cb, hses, hty, hc1, hc2]
          rw [heq]
          exact ⟨setFn_other _ _ hne, rfl⟩
        | some fn =>
          by_cases hguard : ¬cmd = "" ∧ ¬fn = ""
          · cases hcv : env.channel_buffer_found with
            | false =>
              have heq : (service_download_cb st env (did :: cid :: rest)).1
                  = { st with sessions := setFn st.sessions did (some (session.get_download_command cid).1) } := by
                simp [service_download_cb, hses, hty, hc1, hc2, hguard, hcv]
              rw [heq]
              exact ⟨setFn_other _ _ hne, rfl⟩
            | true =>
              have hs' : (service_download_cb st env (did :: cid :: rest)).1.sessions
                  = setFn st.sessions did none := by
                simp [service_download_cb, hses, hty, hc1, hc2, hguard, hcv,
                  end_session_sessions, setFn_setFn]
              have hh' : (service_download_cb st env (did :: cid :: rest)).1.hooks
                  = setFn st.hooks did none := by
                simp [service_download_cb, hses, hty, hc1, hc2, hguard, hcv,
                  end_session_hooks]
              rw [hs', hh']
              exact ⟨setFn_other _ _ hne, setFn_other _ _ hne⟩
          · have heq : (service_download_cb st env (did :: cid :: rest)).1
                = { st with sessions := setFn st.sessions did (some (session.get_download_command cid).1) } := by
              simp [service_download_cb, hses, hty, hc1, hc2, hguard]
            rw [heq]
            exact ⟨setFn_other _ _ hne, rfl⟩
    · have heq : (service_download_cb st env (did :: cid :: rest)).1 = st := by
        simp [service_download_cb, hses, hty]
      rw [heq]; exact ⟨rfl, rfl⟩

/-- The settle-timer guard of a finalizing search session: by the engine
invariant, once the settle timer is armed the print hook is already gone. -/
lemma search_final_guard {st : SMState} (hwf : Wf st) {sid : String}
    {session : XDCCSession}
    (hses : st.sessions sid = some session) (hty : session.type = "search")
    (hen : Enabled st (.final_timer sid)) :
    ∃ h, st.hooks sid = some h ∧ h.print_hook = false ∧
      h.processing_timer.isSome = true := by
  obtain ⟨h, hh, hdisj⟩ := hen
  have hc4 := hwf.2.2.2.1 sid h session hh hses hty
  have hproc : h.processing_timer.isSome = true := by
    rcases hdisj with hp | hc
    · exact hp
    · rw [hc4.1] at hc; exact Bool.noConfusion hc
  exact ⟨h, hh, hc4.2 hproc, hproc⟩

/-- Observing the end-of-results marker pops the print hook and arms the
fixed 500 ms settle timer, leaving the other hooks as they were. -/
lemma handle_print_end_marker {st : SMState} {sid : String} {line : LineInfo}
    {session : XDCCSession} {h0 : SessionHooks}
    (hses : st.sessions sid = some session) (hty : session.type = "search")
    (hh0 : st.hooks sid = some h0)
    (hend : line.is_end = true) :
    (handle_print_callback st sid line).hooks sid
      = some { h0 with print_hook := false, processing_timer := some 500 } ∧
    ((∃ r, line.search_result = some r ∧
        (handle_print_callback st sid line).sessions sid
          = some (session.add_search_result r)) ∨
      (handle_print_callback st sid line).sessions sid = some session) := by
  cases hres : line.search_result with
  | none =>
    constructor
    · simp [handle_print_callback, hses, hty, hend, hres, hh0, setFn_same]
    · right
      simp [handle_print_callback, hses, hty, hend, hres, setFn_same]
  | some r =>
    constructor
    · simp [handle_print_callback, hses, hty, hend, hres, hh0, setFn_same]
    · exact Or.inl ⟨r, rfl, by simp [handle_print_callback, hses, hty, hend, hres, setFn_same]⟩

/-- While a search session sits in its settle window (print hook gone,
settle timer armed), no enabled callback can change its collected result
multiset, and only its own settle timer can change its choices. -/
lemma settle_window_frame {st : SMState} (hwf : Wf st) {sid : String}
    {session : XDCCSession} {h0 : SessionHooks} (e : Ev)
    (hses : st.sessions sid = some session) (hty : session.type = "search")
    (hh0 : st.hooks sid = some h0) (hpr : h0.print_hook = false)
    (hproc : h0.processing_timer.isSome = true)
    (hen : Enabled st e) :
    ∀ sess', (step st e).1.sessions sid = some sess' →
      List.Perm sess'.search_results session.search_results ∧
      (sess'.choices ≠ session.choices → e = .final_timer sid) := by
  have hsidact : Active st sid := ⟨h0, hh0, Or.inr (Or.inl hproc)⟩
  have hlock : st.is_search_active = true := hwf.2.1 sid hsidact
  intro sess' hsess'
  cases e with
  | search_cmd env parts =>
    match parts with
    | [] =>
      rw [show (step st (.search_cmd env [])).1 = st from rfl, hses] at hsess'
      cases hsess'
      exact ⟨List.Perm.refl _, fun hne => absurd rfl hne⟩
    | sid' :: rest =>
      have heq : (step st (.search_cmd env (sid' :: rest))).1 = st := by
        simp [step, service_search_cb_busy env sid' rest hlock]
      rw [heq, hses] at hsess'
      cases hsess'
      exact ⟨List.Perm.refl _, fun hne => absurd rfl hne⟩
  | hot_cmd env parts =>
    match parts with
    | [] =>
      rw [show (step st (.hot_cmd env [])).1 = st from rfl, hses] at hsess'
      cases hsess'
      exact ⟨List.Perm.refl _, fun hne => absurd rfl hne⟩
    | sid' :: rest =>
      have heq : (step st (.hot_cmd env (sid' :: rest))).1 = st := by
        simp [step, service_hot_cb_busy env sid' rest hlock]
      rw [heq, hses] at hsess'
      cases hsess'
      exact ⟨List.Perm.refl _, fun hne => absurd rfl hne⟩
  | download_cmd env parts =>
    match parts with
    | [] =>
      rw [show (step st (.download_cmd env [])).1 = st from rfl, hses] at hsess'
      cases hsess'
      exact ⟨List.Perm.refl _, fun hne => absurd rfl hne⟩
    | [x] =>
      rw [show (step st (.download_cmd env [x])).1 = st from rfl, hses] at hsess'
      cases hsess'
      exact ⟨List.Perm.refl _, fun hne => absurd rfl hne⟩
    | did :: cid :: rest =>
      by_cases hdid : sid = did
      · subst hdid
        have hgdc := get_download_command_session session cid
        cases hc1 : (session.get_download_command cid).2.1 with
        | none =>
          have heq : (step st (.download_cmd env (sid :: cid :: rest))).1.sessions sid
              = some (session.get_download_command cid).1 := by
            simp [step, service_download_cb, hses, hty, hc1, setFn_same]
          rw [heq] at hsess'
          cases hsess'
          exact ⟨hgdc.2.2.2, fun hne => absurd hgdc.2.2.1 hne⟩
        | some cmd =>
          cases hc2 : (session.get_download_command cid).2.2 with
          | none =>
            have heq : (step st (.download_cmd env (sid :: cid :: rest))).1.sessions sid
                = some (session.get_download_command cid).1 := by
              simp [step, service_download_cb, hses, hty, hc1, hc2, setFn_same]
            rw [heq] at hsess'
            cases hsess'
            exact ⟨hgdc.2.2.2, fun hne => absurd hgdc.2.2.1 hne⟩
          | some fn =>
            by_cases hguard : ¬cmd = "" ∧ ¬fn = ""
            · cases hcv : env.channel_buffer_found with
              | false =>
                have heq : (step st (.download_cmd env (sid :: cid :: rest))).1.sessions sid
                    = some (session.get_download_command cid).1 := by
                  simp [step, service_download_cb, hses, hty, hc1, hc2, hguard, hcv,
                    setFn_same]
                rw [heq] at hsess'
                cases hsess'
                exact ⟨hgdc.2.2.2, fun hne => absurd hgdc.2.2.1 hne⟩
              | true =>
                have heq : (step st (.download_cmd env (sid :: cid :: rest))).1.sessions sid
                    = none := by
                  simp [step, service_download_cb, hses, hty, hc1, hc2, hguard, hcv,
                    end_session_sessions, setFn_setFn, setFn_same]
                rw [heq] at hsess'
                exact Option.noConfusion hsess'
            · have heq : (step st (.download_cmd env (sid :: cid :: rest))).1.sessions sid
                  = some (session.get_download_command cid).1 := by
                simp [step, service_download_cb, hses, hty, hc1, hc2, hguard, setFn_same]
              rw [heq] at hsess'
              cases hsess'
              exact ⟨hgdc.2.2.2, fun hne => absurd hgdc.2.2.1 hne⟩
      · have hne : sid ≠ did := hdid
        have hfr := (service_download_frame st env did cid rest hne).1
        rw [show (step st (.download_cmd env (did :: cid :: rest))).1
            = (service_download_cb st env (did :: cid :: rest)).1 from rfl] at hsess'
        rw [hfr, hses] at hsess'
        cases hsess'
        exact ⟨List.Perm.refl _, fun hne' => absurd rfl hne'⟩
  | print_line pid line =>
    by_cases hpid : sid = pid
    · subst hpid
      obtain ⟨h, hh, hp⟩ := hen
      rw [hh0] at hh
      cases hh
      rw [hpr] at hp
      exact Bool.noConfusion hp
    · have hfr := (handle_print_frame st pid line hpid).1
      rw [show (step st (.print_line pid line)).1 = handle_print_callback st pid line from rfl] at hsess'
      rw [hfr, hses] at hsess'
      cases hsess'
      exact ⟨List.Perm.refl _, fun hne => absurd rfl hne⟩
  | final_timer pid =>
    by_cases hpid : sid = pid
    · subst hpid
      by_cases hch : (session.run_generate_choices).choices = []
      · have heq : (step st (.final_timer sid)).1.sessions sid = none := by
          simp [step, handle_final_processing, hses, hh0, hty, hch,
            end_session_sessions, release_search_lock_sessions, setFn_setFn, setFn_same]
        rw [heq] at hsess'
        exact Option.noConfusion hsess'
      · have heq : (step st (.final_timer sid)).1.sessions sid
            = some session.run_generate_choices := by
          simp [step, handle_final_processing, hses, hh0, hty, hch,
            release_search_lock_sessions, setFn_same]
        rw [heq] at hsess'
        cases hsess'
        exact ⟨sortGrabsDesc_perm _, fun _ => rfl⟩
    · have hfr := (handle_final_frame st pid hpid).1
      rw [show (step st (.final_timer pid)).1 = (handle_final_processing st pid).1 from rfl] at hsess'
      rw [hfr, hses] at hsess'
      cases hsess'
      exact ⟨List.Perm.refl _, fun hne => absurd rfl hne⟩
  | expiry_fire pid =>
    by_cases hpid : sid = pid
    · subst hpid
      have heq : (step st (.expiry_fire sid)).1.sessions sid = none := by
        simp [step, handle_expiry, hses, end_session_sessions, setFn_same]
      rw [heq] at hsess'
      exact Option.noConfusion hsess'
    · have hfr := (handle_expiry_frame st pid hpid).1
      rw [show (step st (.expiry_fire pid)).1 = (handle_expiry st pid).1 from rfl] at hsess'
      rw [hfr, hses] at hsess'
      cases hsess'
      exact ⟨List.Perm.refl _, fun hne => absurd rfl hne⟩

end AutoXDCC
namespace AutoXDCC

/-- C2: `generate_choices` sorts the collected records by grabs descending
(stably), collapses them to unique filenames preserving first-seen order
after the sort, keeps for each unique filename the size of a record with
that filename whose grabs are maximal among records sharing the filename,
assigns consecutive 1-based choice ids in that order, and on the records
[(3,"700M","A"), (9,"1.2G","A"), (1,"2G","B")] yields exactly
[(1,"A","1.2G"), (2,"B","2G")]. -/
theorem C2_generate_choices_curation :
    (∀ rs : List Record,
      (generate_choices rs).map (fun c => c.choice_id)
          = List.range' 1 (generate_choices rs).length ∧
      (generate_choices rs).map (fun c => c.filename)
          = dedupFirst ((sortGrabsDesc rs).map (fun r => r.filename)) ∧
      ∀ c ∈ generate_choices rs, ∃ r, r ∈ rs ∧ r.filename = c.filename ∧
          r.size = c.size ∧
          ∀ r' ∈ rs, r'.filename = c.filename → r'.grabs ≤ r.grabs) ∧
    generate_choices
        [⟨3, "700M", "A", "cmdA3"⟩, ⟨9, "1.2G", "A", "cmdA9"⟩, ⟨1, "2G", "B", "cmdB1"⟩]
      = [⟨1, "A", "1.2G"⟩, ⟨2, "B", "2G"⟩] := by
  constructor
  · intro rs
    have hu : ∀ fn ∈ dedupFirst ((sortGrabsDesc rs).map (fun r => r.filename)),
        ((sortGrabsDesc rs).find? (fun r => r.filename == fn)).isSome :=
      fun fn hfn => find?_filename_isSome (mem_dedupFirst hfn)
    have haux := generate_choices_maps_aux (sortGrabsDesc rs)
      (dedupFirst ((sortGrabsDesc rs).map (fun r => r.filename))) 0 hu
    refine ⟨?_, ?_, ?_⟩
    · have hlen : (generate_choices rs).length
          = (dedupFirst ((sortGrabsDesc rs).map (fun r => r.filename))).length := by
        have h2 := congrArg List.length haux.2
        simpa using h2
      rw [hlen]
      exact haux.1
    · exact haux.2
    · intro c hc
      rcases List.mem_filterMap.mp hc with ⟨p, hp, hf⟩
      rcases Option.map_eq_some'.mp hf with ⟨best, hbest, hceq⟩
      subst hceq
      refine ⟨best, ?_, ?_, rfl, ?_⟩
      · exact (sortGrabsDesc_perm rs).mem_iff.mp (List.mem_of_find?_eq_some hbest)
      · have hb := List.find?_some hbest
        exact eq_of_beq hb
      · intro r' hr' hrfn
        have hr's : r' ∈ sortGrabsDesc rs := (sortGrabsDesc_perm rs).mem_iff.mpr hr'
        exact find?_pairwise_max (sortGrabsDesc_sorted rs) hbest r' hr's hrfn
  · decide

theorem C2_generate_choices_curation_witness :
    (generate_choices
        [⟨3, "700M", "A", "cmdA3"⟩, ⟨9, "1.2G", "A", "cmdA9"⟩, ⟨1, "2G", "B", "cmdB1"⟩]).map
        (fun c => c.choice_id)
      = List.range' 1 (generate_choices
        [⟨3, "700M", "A", "cmdA3"⟩, ⟨9, "1.2G", "A", "cmdA9"⟩, ⟨1, "2G", "B", "cmdB1"⟩]).length ∧
    (generate_choices
        [⟨3, "700M", "A", "cmdA3"⟩, ⟨9, "1.2G", "A", "cmdA9"⟩, ⟨1, "2G", "B", "cmdB1"⟩]).map
        (fun c => c.filename)
      = dedupFirst ((sortGrabsDesc
        [⟨3, "700M", "A", "cmdA3"⟩, ⟨9, "1.2G", "A", "cmdA9"⟩, ⟨1, "2G", "B", "cmdB1"⟩]).map
        (fun r => r.filename)) :=
  ⟨(C2_generate_choices_curation.1
      [⟨3, "700M", "A", "cmdA3"⟩, ⟨9, "1.2G", "A", "cmdA9"⟩, ⟨1, "2G", "B", "cmdB1"⟩]).1,
   (C2_generate_choices_curation.1
      [⟨3, "700M", "A", "cmdA3"⟩, ⟨9, "1.2G", "A", "cmdA9"⟩, ⟨1, "2G", "B", "cmdB1"⟩]).2.1⟩

/-- C4: a resolvable download choice id yields the directive of a
maximal-grabs record whose filename is the matched choice's filename; an
unknown session id is answered with one error webhook and no state change;
an unresolvable choice id is answered with one error webhook and the session
stays alive; a resolvable id whose directive and filename are truthy
(non-empty, per `if command_to_run and target_filename:`) with the channel
present sends the directive, notifies success and terminates the session;
on the curation example, choice id 2 resolves to the grabs-1 "B" record's
directive and 99 fails. -/
theorem C4_download_resolution :
    (∀ (sess : XDCCSession) (cid cmd fn : String),
      (sess.get_download_command cid).2.1 = some cmd →
      (sess.get_download_command cid).2.2 = some fn →
      (∃ r, r ∈ sess.search_results ∧ r.command = cmd ∧ r.filename = fn ∧
        ∀ r' ∈ sess.search_results, r'.filename = fn → r'.grabs ≤ r.grabs) ∧
      ∃ c, c ∈ sess.choices ∧ c.filename = fn ∧
        str_to_int cid = some (c.choice_id : Int)) ∧
    (∀ (st : SMState) (env : Env) (sid cid : String) (rest : List String),
      st.sessions sid = none →
      service_download_cb st env (sid :: cid :: rest)
        = (st, [.notif (.download_status sid "error"
            "Download failed: Session expired or is not a valid search session. Please search again.")],
           WEECHAT_RC_OK)) ∧
    (∀ (st : SMState) (env : Env) (sid cid : String) (rest : List String)
        (sess : XDCCSession),
      st.sessions sid = some sess → sess.type = "search" →
      (sess.get_download_command cid).2.1 = none →
      (service_download_cb st env (sid :: cid :: rest)).1.sessions sid
          = some (sess.get_download_command cid).1 ∧
      (service_download_cb st env (sid :: cid :: rest)).2.1
          = [.notif (.download_status sid "error"
              ("Download failed: Invalid choice ID '" ++ cid ++ "' for session "
                ++ sid ++ ". Please select from available options."))]) ∧
    (∀ (st : SMState) (env : Env) (sid cid : String) (rest : List String)
        (sess : XDCCSession) (cmd fn : String),
      st.sessions sid = some sess → sess.type = "search" →
      (sess.get_download_command cid).2.1 = some cmd →
      (sess.get_download_command cid).2.2 = some fn →
      ¬cmd = "" → ¬fn = "" →
      env.channel_buffer_found = true →
      (service_download_cb st env (sid :: cid :: rest)).1.sessions sid = none ∧
      (service_download_cb st env (sid :: cid :: rest)).2.1
          = [.irc_command cmd,
             .notif (.download_status sid "success"
               ("Download command for **`" ++ fn ++ "`** (Choice #" ++ cid
                 ++ ") sent to IRC."))]) ∧
    ((XDCCSession.get_download_command
        ⟨"s", "q", "search",
          [⟨3, "700M", "A", "cmdA3"⟩, ⟨9, "1.2G", "A", "cmdA9"⟩, ⟨1, "2G", "B", "cmdB1"⟩],
          [⟨1, "A", "1.2G"⟩, ⟨2, "B", "2G"⟩], "", []⟩ "2").2
        = (some "cmdB1", some "B") ∧
     (XDCCSession.get_download_command
        ⟨"s", "q", "search",
          [⟨3, "700M", "A", "cmdA3"⟩, ⟨9, "1.2G", "A", "cmdA9"⟩, ⟨1, "2G", "B", "cmdB1"⟩],
          [⟨1, "A", "1.2G"⟩, ⟨2, "B", "2G"⟩], "", []⟩ "99").2
        = (none, none)) := by
  refine ⟨?_, ?_, ?_, ?_, by decide, by decide⟩
  · intro sess cid cmd fn hc1 hc2
    unfold XDCCSession.get_download_command at hc1 hc2
    cases h1 : str_to_int cid with
    | none => simp only [h1] at hc1; simp at hc1
    | some n =>
      simp only [h1] at hc1 hc2
      cases h2 : sess.choices.find? (fun c => (c.choice_id : Int) == n) with
      | none => simp only [h2] at hc1; simp at hc1
      | some c =>
        simp only [h2] at hc1 hc2
        cases h3 : (sortGrabsDesc sess.search_results).find?
            (fun r => r.filename == c.filename) with
        | none => simp only [h3] at hc1; simp at hc1
        | some r =>
          simp only [h3] at hc1 hc2
          simp only [Option.some.injEq] at hc1 hc2
          constructor
          · refine ⟨r, ?_, hc1, ?_, ?_⟩
            · exact (sortGrabsDesc_perm _).mem_iff.mp (List.mem_of_find?_eq_some h3)
            · have hb := List.find?_some h3
              rw [← hc2]
              exact eq_of_beq hb
            · intro r' hr' hrfn
              have hr's : r' ∈ sortGrabsDesc sess.search_results :=
                (sortGrabsDesc_perm _).mem_iff.mpr hr'
              refine find?_pairwise_max (sortGrabsDesc_sorted _) h3 r' hr's ?_
              rw [hrfn, ← hc2]
          · refine ⟨c, List.mem_of_find?_eq_some h2, hc2, ?_⟩
            have hb2 := List.find?_some h2
            have hn : (c.choice_id : Int) = n := eq_of_beq hb2
            rw [hn]
  · intro st env sid cid rest hses
    simp [service_download_cb, hses]
  · intro st env sid cid rest sess hses hty hc1
    constructor
    · simp [service_download_cb, hses, hty, hc1, setFn_same]
    · simp [service_download_cb, hses, hty, hc1]
  · intro st env sid cid rest sess cmd fn hses hty hc1 hc2 hcmd hfn hcv
    have hguard : ¬cmd = "" ∧ ¬fn = "" := ⟨hcmd, hfn⟩
    constructor
    · simp [service_download_cb, hses, hty, hc1, hc2, hguard, hcv,
        end_session_sessions, setFn_setFn, setFn_same]
    · simp [service_download_cb, hses, hty, hc1, hc2, hguard, hcv]

theorem C4_download_resolution_witness :
    service_download_cb (initial_state "srv" "#c" 300000 2000) ⟨true, true⟩ ["sX", "1"]
      = (initial_state "srv" "#c" 300000 2000,
         [.notif (.download_status "sX" "error"
            "Download failed: Session expired or is not a valid search session. Please search again.")],
         WEECHAT_RC_OK) :=
  C4_download_resolution.2.1 _ ⟨true, true⟩ "sX" "1" [] rfl

end AutoXDCC
namespace AutoXDCC

/-- C1: while the global lock is held, an inbound search or hot command is
answered with exactly one `rejected_busy` webhook (`send_rejection`) carrying
the supplied session id, and the callback returns the engine state itself —
no session object, no hooks, lock and session store untouched; moreover in
every reachable state at most one session is between Created and Finalizing
(has a stream subscription or a completion-path timer). -/
theorem C1_busy_rejection :
    (∀ (st : SMState) (env : Env) (sid : String) (rest : List String),
      st.is_search_active = true →
      service_search_cb st env (sid :: rest)
        = (st, [.notif (send_rejection sid
            "Another search is already in progress. Please try again.")], WEECHAT_RC_OK)) ∧
    (∀ (st : SMState) (env : Env) (sid : String) (rest : List String),
      st.is_search_active = true →
      service_hot_cb st env (sid :: rest)
        = (st, [.notif (send_rejection sid
            "Another search is already in progress. Please try again.")], WEECHAT_RC_OK)) ∧
    (∀ st : SMState, Reachable st → ∀ a b, Active st a → Active st b → a = b) := by
  refine ⟨?_, ?_, ?_⟩
  · intro st env sid rest h
    exact service_search_cb_busy env sid rest h
  · intro st env sid rest h
    exact service_hot_cb_busy env sid rest h
  · intro st hr a b ha hb
    exact (wf_reachable hr).1 a b ha hb

theorem C1_busy_rejection_witness :
    service_search_cb
        (step (initial_state "srv" "#c" 300000 2000)
          (.search_cmd ⟨true, true⟩ ["s1", "q"])).1 ⟨true, true⟩ ["s2"]
      = ((step (initial_state "srv" "#c" 300000 2000)
            (.search_cmd ⟨true, true⟩ ["s1", "q"])).1,
         [.notif (send_rejection "s2"
            "Another search is already in progress. Please try again.")], WEECHAT_RC_OK) ∧
    "s1" = "s1" := by
  constructor
  · exact C1_busy_rejection.1 _ ⟨true, true⟩ "s2" [] (by decide)
  · exact C1_busy_rejection.2.2 _
      (Reachable.step (.search_cmd ⟨true, true⟩ ["s1", "q"])
        (Reachable.init "srv" "#c" 300000 2000) trivial)
      "s1" "s1"
      ⟨⟨true, some 300000, none, none⟩, by decide, Or.inl rfl⟩
      ⟨⟨true, some 300000, none, none⟩, by decide, Or.inl rfl⟩

/-- C3 counterexample: immediately after Accept of a search session the
expiry timer is already armed — before any success notification (the only
output is the outbound `!search` line), while the lock is held and the
session is still Collecting (print hook live) — and the expiry event is
already enabled; firing it right there terminates the session with an
`expired` notification. This falsifies the claim that the expiry timer is
armed only at Finalizing, after the success notification and the lock
release, and that Expiry can fire only in pending-download. -/
theorem C3_counterexample :
    (step (initial_state "srv" "#c" 300000 2000)
        (.search_cmd ⟨true, true⟩ ["s1", "q"])).1.hooks "s1"
      = some ⟨true, some 300000, none, none⟩ ∧
    (step (initial_state "srv" "#c" 300000 2000)
        (.search_cmd ⟨true, true⟩ ["s1", "q"])).2
      = [.irc_command "!search q"] ∧
    (step (initial_state "srv" "#c" 300000 2000)
        (.search_cmd ⟨true, true⟩ ["s1", "q"])).1.is_search_active = true ∧
    Enabled (step (initial_state "srv" "#c" 300000 2000)
        (.search_cmd ⟨true, true⟩ ["s1", "q"])).1 (.expiry_fire "s1") ∧
    (step (step (initial_state "srv" "#c" 300000 2000)
        (.search_cmd ⟨true, true⟩ ["s1", "q"])).1 (.expiry_fire "s1")).2
      = [.notif (.session_expired "s1"
          "This search session has expired due to inactivity.")] :=
  ⟨by decide, by decide, by decide,
   ⟨⟨true, some 300000, none, none⟩, by decide, by decide⟩, by decide⟩

/-- C3 amended: the expiry timer of a search session is armed at Accept —
`start_new_session` arms it with the configured timeout in the same callback
that created the session — so it can fire at any point while the session is
alive, including while it is still Collecting; when it fires for a live
session, the session is forcibly terminated with exactly one `expired`
notification, and firing for an absent session does nothing. -/
theorem C3_expiry_amended :
    (∀ (st : SMState) (env : Env) (sid q : String),
      env.server_buffer_found = true → env.channel_buffer_found = true →
      (start_new_session st env sid q "search").1.hooks sid
        = some ⟨true, some st.session_timeout, none, none⟩) ∧
    (∀ (st : SMState) (sid : String) (sess : XDCCSession),
      st.sessions sid = some sess →
      handle_expiry st sid
        = (end_session st sid,
           [.notif (.session_expired sid
              "This search session has expired due to inactivity.")]) ∧
      (handle_expiry st sid).1.sessions sid = none ∧
      (handle_expiry st sid).1.hooks sid = none) ∧
    (∀ (st : SMState) (sid : String),
      st.sessions sid = none → handle_expiry st sid = (st, [])) := by
  refine ⟨?_, ?_, ?_⟩
  · intro st env sid q hs hc
    rw [sns_ok_search st sid q hs hc]
    dsimp only
    exact setFn_same _ _ _
  · intro st sid sess hses
    refine ⟨by simp [handle_expiry, hses], ?_, ?_⟩
    · simp [handle_expiry, hses, end_session_sessions, setFn_same]
    · simp [handle_expiry, hses, end_session_hooks, setFn_same]
  · intro st sid hses
    simp [handle_expiry, hses]

theorem C3_expiry_amended_witness :
    (start_new_session (initial_state "srv" "#c" 300000 2000) ⟨true, true⟩
        "s1" "q" "search").1.hooks "s1"
      = some ⟨true, some 300000, none, none⟩ ∧
    (handle_expiry (step (initial_state "srv" "#c" 300000 2000)
        (.search_cmd ⟨true, true⟩ ["s1", "q"])).1 "s1").1.sessions "s1" = none := by
  constructor
  · exact C3_expiry_amended.1 (initial_state "srv" "#c" 300000 2000) ⟨true, true⟩
      "s1" "q" rfl rfl
  · exact (C3_expiry_amended.2.1 _ "s1" ⟨"s1", "q", "search", [], [], "", []⟩
      (by decide)).2.1

/-- C10: `handle_expiry` never changes the global lock flag: it calls
`end_session` with `release_lock` left `False`, so `is_search_active` is the
same before and after expiry handling — in particular, if the expiry timer
fires while a search session is still Collecting (before Finalizing released
the lock), the lock remains held afterwards. -/
theorem C10_expiry_preserves_lock (st : SMState) (sid : String) :
    (handle_expiry st sid).1.is_search_active = st.is_search_active := by
  cases hses : st.sessions sid with
  | none => simp [handle_expiry, hses]
  | some s => simp [handle_expiry, hses, end_session_lock_false]

end AutoXDCC
namespace AutoXDCC

/-- C5: for a hot session, each incoming line matching the header or the
item shape while the completion timer is registered cancels it and re-arms
it with the full configured delay (other hooks untouched); a `hot_results`
notification — hot finalization — can be produced only by the
final-processing timer callback; and under the timed interpretation of the
debounce, item matches at 0, 1000 and 1900 ms with a 2000 ms idle window
finalize at 3900 ms, not at 2000 ms. -/
theorem C5_hot_idle_debounce :
    (∀ (st : SMState) (sid : String) (sess : XDCCSession) (h : SessionHooks)
        (line : LineInfo),
      st.sessions sid = some sess → sess.type = "hot" →
      st.hooks sid = some h → h.completion_timer.isSome = true →
      (line.hot_header.isSome = true ∨ line.hot_item.isSome = true) →
      ∃ h', (handle_print_callback st sid line).hooks sid = some h' ∧
        h'.completion_timer = some st.hot_list_completion_delay ∧
        h'.print_hook = h.print_hook ∧ h'.expiry_timer = h.expiry_timer ∧
        h'.processing_timer = h.processing_timer) ∧
    (∀ (st : SMState) (e : Ev) (sid status : String) (summary : Option String)
        (items : Option (List HotItem)),
      Output.notif (.hot_results sid status summary items) ∈ (step st e).2 →
      ∃ fid, e = .final_timer fid) ∧
    (hotFinalizeTime 2000 [0, 1000, 1900] = 3900 ∧
      hotFinalizeTime 2000 [0, 1000, 1900] ≠ 2000) := by
  refine ⟨?_, ?_, by decide, by decide⟩
  · intro st sid sess h line hses hty hh hcs hmatch
    have htyne : ¬ sess.type = "search" := by
      rw [hty]; intro hc; exact absurd hc (by decide)
    refine ⟨{ h with completion_timer := some st.hot_list_completion_delay },
      ?_, rfl, rfl, rfl, rfl⟩
    simp [handle_print_callback, hses, htyne, hty, hh, hmatch, hcs, setFn_same]
  · intro st e sid status summary items hmem
    exact hot_results_only_final hmem

theorem C5_hot_idle_debounce_witness :
    (handle_print_callback
        (step (initial_state "srv" "#c" 300000 2000) (.hot_cmd ⟨true, true⟩ ["h1"])).1
        "h1" { hot_item := some ⟨68, "TV-X265", "564M", "file.mkv"⟩ }).hooks "h1"
      = some ⟨true, none, some 2000, none⟩ := by
  obtain ⟨h', hh', hcomp, hpr, hexp, hproc⟩ :=
    C5_hot_idle_debounce.1
      (step (initial_state "srv" "#c" 300000 2000) (.hot_cmd ⟨true, true⟩ ["h1"])).1
      "h1" ⟨"h1", "", "hot", [], [], "", []⟩ ⟨true, none, some 2000, none⟩
      { hot_item := some ⟨68, "TV-X265", "564M", "file.mkv"⟩ }
      (by decide) rfl (by decide) (by decide) (Or.inr (by decide))
  have hcomp' : h'.completion_timer = some 2000 := hcomp
  have hpr' : h'.print_hook = true := hpr
  have hexp' : h'.expiry_timer = none := hexp
  have hproc' : h'.processing_timer = none := hproc
  rw [hh']
  cases h'
  dsimp only at hcomp' hpr' hexp' hproc'
  rw [hcomp', hpr', hexp', hproc']

/-- C6: observing the search end-of-results marker pops the print hook and
arms the fixed 500 ms settle timer in the same callback; in every reachable
state in which the settle timer is enabled to fire for a search session, the
print hook is already gone (the unsubscription precedes curation); and while
a search session sits in the settle window no enabled callback changes its
collected record multiset, while its choices can change only through the
session's own final-processing timer callback. -/
theorem C6_end_marker_settle :
    (∀ (st : SMState) (sid : String) (line : LineInfo) (sess : XDCCSession)
        (h0 : SessionHooks),
      st.sessions sid = some sess → sess.type = "search" →
      st.hooks sid = some h0 → line.is_end = true →
      (handle_print_callback st sid line).hooks sid
        = some { h0 with print_hook := false, processing_timer := some 500 }) ∧
    (∀ st : SMState, Reachable st → ∀ (sid : String) (sess : XDCCSession),
      st.sessions sid = some sess → sess.type = "search" →
      Enabled st (.final_timer sid) →
      ∃ h, st.hooks sid = some h ∧ h.print_hook = false ∧
        h.processing_timer.isSome = true) ∧
    (∀ st : SMState, Reachable st →
      ∀ (sid : String) (sess : XDCCSession) (h0 : SessionHooks) (e : Ev),
      st.sessions sid = some sess → sess.type = "search" →
      st.hooks sid = some h0 → h0.print_hook = false →
      h0.processing_timer.isSome = true → Enabled st e →
      ∀ sess', (step st e).1.sessions sid = some sess' →
        List.Perm sess'.search_results sess.search_results ∧
        (sess'.choices ≠ sess.choices → e = .final_timer sid)) := by
  refine ⟨?_, ?_, ?_⟩
  · intro st sid line sess h0 hses hty hh0 hend
    exact (handle_print_end_marker hses hty hh0 hend).1
  · intro st hr sid sess hses hty hen
    exact search_final_guard (wf_reachable hr) hses hty hen
  · intro st hr sid sess h0 e hses hty hh0 hpr hproc hen
    exact settle_window_frame (wf_reachable hr) e hses hty hh0 hpr hproc hen

theorem C6_end_marker_settle_witness :
    List.Perm ([] : List Record) ([] : List Record) := by
  have hr2 : Reachable (step (step (initial_state "srv" "#c" 300000 2000)
      (.search_cmd ⟨true, true⟩ ["s1", "q"])).1
      (.print_line "s1" { is_end := true })).1 :=
    Reachable.step (.print_line "s1" { is_end := true })
      (Reachable.step (.search_cmd ⟨true, true⟩ ["s1", "q"])
        (Reachable.init "srv" "#c" 300000 2000) trivial)
      ⟨⟨true, some 300000, none, none⟩, by decide, by decide⟩
  have happ := C6_end_marker_settle.2.2 _ hr2 "s1" ⟨"s1", "q", "search", [], [], "", []⟩
      ⟨false, some 300000, none, some 500⟩ (.search_cmd ⟨true, true⟩ ["s2", "q2"])
      (by decide) (by decide) (by decide) (by decide) (by decide) trivial
      ⟨"s1", "q", "search", [], [], "", []⟩ (by decide)
  exact happ.1

/-- C7: on both early-exit error paths of Accept after the lock was acquired
— the server identity buffer or the channel buffer missing — the freshly
inserted session (and its hooks entry) is destroyed, the global lock is
released, and exactly one error webhook carrying the supplied session id is
emitted. -/
theorem C7_accept_error_paths (st : SMState) (env : Env) (sid q ty : String)
    (hfresh_s : st.sessions sid = none) (hfresh_h : st.hooks sid = none)
    (hlock : st.is_search_active = true)
    (henv : env.server_buffer_found = false ∨ env.channel_buffer_found = false) :
    (∀ k, (start_new_session st env sid q ty).1.sessions k = st.sessions k) ∧
    (∀ k, (start_new_session st env sid q ty).1.hooks k = st.hooks k) ∧
    (start_new_session st env sid q ty).1.is_search_active = false ∧
    ∃ m, (start_new_session st env sid q ty).2 = [.notif (send_error sid m)] := by
  obtain ⟨h1, h2, h3, h4⟩ := sns_err_fields st sid q ty henv
  refine ⟨?_, ?_, h3, h4⟩
  · intro k
    rw [h1]
    by_cases hk : k = sid
    · rw [hk, setFn_same, hfresh_s]
    · exact setFn_other _ _ hk
  · intro k
    rw [h2]
    by_cases hk : k = sid
    · rw [hk, setFn_same, hfresh_h]
    · exact setFn_other _ _ hk

theorem C7_accept_error_paths_witness :
    (start_new_session { initial_state "srv" "#c" 300000 2000 with is_search_active := true }
        ⟨false, true⟩ "s1" "q" "search").1.sessions "s1" = none ∧
    (start_new_session { initial_state "srv" "#c" 300000 2000 with is_search_active := true }
        ⟨false, true⟩ "s1" "q" "search").1.hooks "s1" = none ∧
    (start_new_session { initial_state "srv" "#c" 300000 2000 with is_search_active := true }
        ⟨false, true⟩ "s1" "q" "search").1.is_search_active = false := by
  obtain ⟨h1, h2, h3, _⟩ := C7_accept_error_paths
    { initial_state "srv" "#c" 300000 2000 with is_search_active := true }
    ⟨false, true⟩ "s1" "q" "search" rfl rfl rfl (Or.inl rfl)
  exact ⟨h1 "s1", h2 "s1", h3⟩

/-- C8 counterexample: `search s1` — a session id with zero query tokens —
is not rejected: `parts[0], " ".join(parts[1:])` raises IndexError only for
an empty token list, so with the lock free the command returns the OK code,
acquires the lock and creates a session with an empty query, contradicting
the claimed UsageError with no state change. -/
theorem C8_counterexample :
    (service_search_cb (initial_state "srv" "#c" 300000 2000) ⟨true, true⟩
        ["s1"]).2.2 = WEECHAT_RC_OK ∧
    (service_search_cb (initial_state "srv" "#c" 300000 2000) ⟨true, true⟩
        ["s1"]).1.is_search_active = true ∧
    (service_search_cb (initial_state "srv" "#c" 300000 2000) ⟨true, true⟩
        ["s1"]).1.sessions "s1" = some ⟨"s1", "", "search", [], [], "", []⟩ :=
  ⟨by decide, by decide, by decide⟩

/-- C8 amended: a creation or download command with too few tokens to
destructure — zero tokens for `search` or `hot`, fewer than two for
`download` — returns the usage-error code with no webhook, no outbound
command and no state change; but `search <session_id>` with zero query
tokens is accepted: with the lock free and the buffers present it acquires
the lock and starts a search session whose query is the empty string. -/
theorem C8_usage_errors :
    (∀ (st : SMState) (env : Env),
      service_search_cb st env [] = (st, [], WEECHAT_RC_ERROR)) ∧
    (∀ (st : SMState) (env : Env),
      service_hot_cb st env [] = (st, [], WEECHAT_RC_ERROR)) ∧
    (∀ (st : SMState) (env : Env),
      service_download_cb st env [] = (st, [], WEECHAT_RC_ERROR)) ∧
    (∀ (st : SMState) (env : Env) (x : String),
      service_download_cb st env [x] = (st, [], WEECHAT_RC_ERROR)) ∧
    (∀ (st : SMState) (env : Env) (sid : String),
      st.is_search_active = false →
      env.server_buffer_found = true → env.channel_buffer_found = true →
      (service_search_cb st env [sid]).1.sessions sid
          = some ⟨sid, "", "search", [], [], "", []⟩ ∧
      (service_search_cb st env [sid]).1.is_search_active = true ∧
      (service_search_cb st env [sid]).2.2 = WEECHAT_RC_OK) := by
  refine ⟨fun st env => rfl, fun st env => rfl, fun st env => rfl,
    fun st env x => rfl, ?_⟩
  intro st env sid hl hs hc
  have heq := service_search_cb_free env sid [] hl
  refine ⟨?_, ?_, ?_⟩
  · rw [heq]
    dsimp only
    rw [sns_ok_search { st with is_search_active := true } sid
      (String.intercalate " " []) hs hc]
    dsimp only
    rw [setFn_same]
    rfl
  · rw [heq]
    dsimp only
    rw [sns_ok_search { st with is_search_active := true } sid
      (String.intercalate " " []) hs hc]
  · rw [heq]

theorem C8_usage_errors_witness :
    (service_search_cb (initial_state "srv" "#c" 300000 2000) ⟨true, true⟩
        ["s1"]).1.sessions "s1" = some ⟨"s1", "", "search", [], [], "", []⟩ :=
  (C8_usage_errors.2.2.2.2 (initial_state "srv" "#c" 300000 2000) ⟨true, true⟩
    "s1" rfl rfl rfl).1

end AutoXDCC
namespace Relay

/-- C9: `_perform_full_login` rejects a missing credential before any
network I/O — the returned action trace is empty and no connection is
opened; `_receive` reads a 4-byte big-endian total length that counts
itself, then exactly `total_length - 4` further bytes (one compression flag
byte plus `total_length - 5` payload bytes, leaving the rest of the stream
unconsumed), and fails with the unsupported-feature error exactly when the
flag byte is non-zero. -/
theorem C9_relay_transport :
    (∀ (cfg : RelayConfig) (stream : List Nat), cfg.password = "" →
      perform_full_login cfg stream
        = ([], some (.configuration_error "WeeChat relay password is not set."))) ∧
    (∀ (b0 b1 b2 b3 flag : Nat) (rest : List Nat),
      5 ≤ beU32 [b0, b1, b2, b3] →
      beU32 [b0, b1, b2, b3] ≤ (b0 :: b1 :: b2 :: b3 :: flag :: rest).length →
      (flag ≠ 0 →
        receive (b0 :: b1 :: b2 :: b3 :: flag :: rest) = .error .unsupported_feature) ∧
      (flag = 0 →
        receive (b0 :: b1 :: b2 :: b3 :: flag :: rest)
          = .ok (rest.take (beU32 [b0, b1, b2, b3] - 5),
                 rest.drop (beU32 [b0, b1, b2, b3] - 5)))) := by
  constructor
  · intro cfg stream hp
    simp [perform_full_login, hp]
  · intro b0 b1 b2 b3 flag rest h5 hlen
    have hlen' : beU32 [b0, b1, b2, b3] ≤ rest.length + 5 := by
      simpa using hlen
    have hre4 : readexactly 4 (b0 :: b1 :: b2 :: b3 :: flag :: rest)
        = some ([b0, b1, b2, b3], flag :: rest) := by
      have h4 : 4 ≤ (b0 :: b1 :: b2 :: b3 :: flag :: rest).length := by
        simp
      unfold readexactly
      rw [if_pos h4]
      rfl
    have hnot4 : ¬ beU32 [b0, b1, b2, b3] < 4 := by omega
    have hsub : beU32 [b0, b1, b2, b3] - 4 = (beU32 [b0, b1, b2, b3] - 5) + 1 := by
      omega
    have hre2 : readexactly (beU32 [b0, b1, b2, b3] - 4) (flag :: rest)
        = some (flag :: rest.take (beU32 [b0, b1, b2, b3] - 5),
                rest.drop (beU32 [b0, b1, b2, b3] - 5)) := by
      have hok : beU32 [b0, b1, b2, b3] - 4 ≤ (flag :: rest).length := by
        simp only [List.length_cons]
        omega
      unfold readexactly
      rw [if_pos hok, hsub, List.take_succ_cons, List.drop_succ_cons]
    constructor
    · intro hflag
      unfold receive
      rw [hre4]
      simp only [if_neg hnot4]
      rw [hre2]
      simp [hflag]
    · intro hflag
      subst hflag
      unfold receive
      rw [hre4]
      simp only [if_neg hnot4]
      rw [hre2]
      simp

theorem C9_relay_transport_witness :
    perform_full_login ⟨"host", 9001, ""⟩ []
      = ([], some (.configuration_error "WeeChat relay password is not set.")) ∧
    receive [0, 0, 0, 6, 1, 65, 66] = .error .unsupported_feature ∧
    receive [0, 0, 0, 6, 0, 65, 66] = .ok ([65], [66]) := by
  refine ⟨C9_relay_transport.1 ⟨"host", 9001, ""⟩ [] rfl, ?_, ?_⟩
  · exact (C9_relay_transport.2 0 0 0 6 1 [65, 66] (by decide) (by decide)).1 (by decide)
  · exact (C9_relay_transport.2 0 0 0 6 0 [65, 66] (by decide) (by decide)).2 rfl

end Relay
